import Mathlib

/-!
Verification of the Local Synchronization Engine of the seanime repository,
shallowly embedded from `internal/sync/sync.go`.

Go values of pointer type (`*T`) are embedded as `Option` values, Go maps as
association lists (`List (key × value)` with replace-or-append insertion),
Go slices as `List`, and the external collaborators (metadata provider, image
downloader, local database save operations) as explicit oracle fields on the
engine state.  Helper functions of the repository that are referenced from
`sync.go` but whose source is not part of the provided tree
(`ToNewPointer`, `FormatAssetUrl`, `BaseAnimeDeepCopy`, `removeAnime`,
`removeManga`, `GetAnimeReferenceKey`, `GetMangaReferenceKey`,
`GetListEntryFromMangaId`) are modelled from the specification and marked as
such in their doc comments.
-/

namespace Seanime

/-- Status of a media list on the remote service (AniList `MediaListStatus`). -/
inductive MediaListStatus where
  | current
  | planning
  | completed
  | dropped
  | paused
  | repeating
deriving DecidableEq, Repr

/-- Cover image of a media object, with its size variants and dominant color
(`BaseAnime_CoverImage` / `BaseManga_CoverImage`). -/
structure CoverImage where
  extraLarge : Option String
  large : Option String
  medium : Option String
  color : Option String
deriving DecidableEq, Repr

/-- The fields of the remote media object (`BaseAnime` / `BaseManga`) that the
synchronization engine reads or rewrites. -/
structure BaseMedia where
  id : Nat
  bannerImage : Option String
  coverImage : Option CoverImage
deriving DecidableEq, Repr

/-- Fuzzy date carried on list entries (`StartedAt` / `CompletedAt`). -/
structure FuzzyDate where
  year : Option Int
  month : Option Int
  day : Option Int
deriving DecidableEq, Repr

/-- An entry of a remote or local media list (`AnimeListEntry` /
`MangaListEntry`).  The Go `Score` field is a `float64` that the engine only
copies, never computes with; it is carried here as an opaque `Option Int`.
The Go fields `Repeat` and `Private` are renamed to `repeatCount` and
`isPrivate` because their names are Lean keywords. -/
structure ListEntry where
  id : Nat
  score : Option Int
  progress : Option Nat
  status : Option MediaListStatus
  notes : Option String
  repeatCount : Option Nat
  isPrivate : Option Bool
  startedAt : Option FuzzyDate
  completedAt : Option FuzzyDate
  media : BaseMedia
deriving DecidableEq, Repr

/-- One list of a collection (`AnimeCollection_MediaListCollection_Lists` /
manga counterpart).  Lists with `status = none` are custom lists. -/
structure MediaList where
  status : Option MediaListStatus
  name : Option String
  isCustomList : Option Bool
  entries : List ListEntry
deriving DecidableEq, Repr

/-- A remote or local collection (`AnimeCollection` / `MangaCollection`):
the ordered lists of its `MediaListCollection`. -/
structure Collection where
  lists : List MediaList
deriving DecidableEq, Repr

/-- A scanned local video file (`anime.LocalFile`), restricted to the fields
the engine reads. -/
structure LocalFile where
  path : String
  mediaId : Nat
  episodeNumber : Nat
deriving DecidableEq, Repr

/-- A downloaded manga chapter container (`manga.ChapterContainer`),
restricted to the fields the engine reads. -/
structure ChapterContainer where
  mediaId : Nat
  provider : String
  chapterIds : List String
deriving DecidableEq, Repr

/-- Episode metadata returned by the metadata provider; only the image URL is
used by the engine. -/
structure EpisodeMetadata where
  image : String
deriving DecidableEq, Repr

/-- Anime metadata returned by the metadata provider
(`metadata.AnimeMetadata`): its `Episodes` map, embedded as an association
list from episode key to episode metadata. -/
structure AnimeMetadata where
  episodes : List (String × EpisodeMetadata)
deriving DecidableEq, Repr

/-- Persisted anime snapshot (`AnimeSnapshot`).  `episodeImagePaths` is the Go
`map[string]string`, embedded as an association list.  The reference key is
carried in its canonical pre-hash form (see `GetAnimeReferenceKey`). -/
structure AnimeSnapshot where
  mediaId : Nat
  animeMetadata : AnimeMetadata
  bannerImagePath : String
  coverImagePath : String
  episodeImagePaths : List (String × String)
  referenceKey : List (String × Nat)
deriving DecidableEq, Repr

/-- Persisted manga snapshot (`MangaSnapshot`). -/
structure MangaSnapshot where
  mediaId : Nat
  chapterContainers : List ChapterContainer
  bannerImagePath : String
  coverImagePath : String
  referenceKey : List (String × List String)
deriving DecidableEq, Repr

/-- Diff classification (`DiffType`). -/
inductive DiffType where
  | missing
  | metadata
  | upToDate
deriving DecidableEq, Repr

/-- Result of the differ for one anime (`AnimeDiffResult`). -/
structure AnimeDiffResult where
  diffType : DiffType
  animeEntry : Option ListEntry
  animeSnapshot : Option AnimeSnapshot
deriving DecidableEq, Repr

/-- Result of the differ for one manga (`MangaDiffResult`). -/
structure MangaDiffResult where
  diffType : DiffType
  mangaEntry : Option ListEntry
  mangaSnapshot : Option MangaSnapshot
deriving DecidableEq, Repr

/-- Replace-or-append insertion into an association list; the embedding of a
Go map assignment `m[k] = v`. -/
def alInsert {α β : Type} [DecidableEq α] : List (α × β) → α → β → List (α × β)
  | [], k, v => [(k, v)]
  | (k', v') :: t, k, v =>
      if k' = k then (k, v) :: t else (k', v') :: alInsert t k v

/-- Modelled from the spec (missing helper `util.ToNewPointer`): copies a Go
pointer's value to a freshly allocated pointer, preserving `nil`.  On the
`Option` embedding this is the identity. -/
def ToNewPointer {α : Type} (p : Option α) : Option α := p

/-- Modelled from the spec (missing helper `BaseAnimeDeepCopy` /
`BaseMangaDeepCopy`): a field-by-field deep copy of the media object; on the
value embedding it rebuilds the structure. -/
def BaseMediaDeepCopy (m : BaseMedia) : BaseMedia :=
  { id := m.id, bannerImage := m.bannerImage, coverImage := m.coverImage }

/-- Modelled from the spec (missing helper `FormatAssetUrl`): asset URLs
served by the host follow `/assets/<mediaId>/<logicalName>` (spec section 6). -/
def FormatAssetUrl (mediaId : Nat) (path : String) : Option String :=
  some ("/assets/" ++ toString mediaId ++ "/" ++ path)

/-- Modelled from the spec (missing helper `GetAnimeReferenceKey`): a stable
fingerprint over the local file paths and parsed episode numbers belonging to
the media.  The canonical pre-hash form is kept instead of an opaque hash. -/
def GetAnimeReferenceKey (media : BaseMedia) (files : List LocalFile) :
    List (String × Nat) :=
  (files.filter (fun f => f.mediaId = media.id)).map
    (fun f => (f.path, f.episodeNumber))

/-- Modelled from the spec (missing helper `GetMangaReferenceKey`): a stable
fingerprint over the ordered chapter container identifiers
`(provider, chapterIds)` of the media. -/
def GetMangaReferenceKey (media : BaseMedia) (containers : List ChapterContainer) :
    List (String × List String) :=
  (containers.filter (fun c => c.mediaId = media.id)).map
    (fun c => (c.provider, c.chapterIds))

/-- Modelled from the spec (missing helper
`MangaCollection.GetListEntryFromMangaId`): returns the first entry across the
collection's lists whose media id matches. -/
def GetListEntryFromMangaId (c : Collection) (mediaId : Nat) : Option ListEntry :=
  (c.lists.flatMap (fun l => l.entries)).find? (fun e => e.media.id = mediaId)

/-! ## Local database and engine state -/

/-- The local database (`localDb`), with the persisted snapshots and the two
singleton local collection rows.  The `failSave*` fields are oracles deciding
whether the corresponding save operation reports an I/O error. -/
structure LocalDb where
  animeSnapshots : List AnimeSnapshot
  mangaSnapshots : List MangaSnapshot
  localAnimeCollection : Option Collection
  localMangaCollection : Option Collection
  failSaveAnimeCollection : Bool
  failSaveMangaCollection : Bool
  failSaveAnimeSnapshot : Bool
  failSaveMangaSnapshot : Bool

/-- Replace-or-append of a snapshot keyed by its media id: the embedding of
`localDb.SaveAnimeSnapshot` / `localDb.SaveMangaSnapshot` record upsert. -/
def saveAnimeSnapList : List AnimeSnapshot → AnimeSnapshot → List AnimeSnapshot
  | [], sn => [sn]
  | s :: t, sn => if s.mediaId = sn.mediaId then sn :: t else s :: saveAnimeSnapList t sn

/-- Manga counterpart of `saveAnimeSnapList`. -/
def saveMangaSnapList : List MangaSnapshot → MangaSnapshot → List MangaSnapshot
  | [], sn => [sn]
  | s :: t, sn => if s.mediaId = sn.mediaId then sn :: t else s :: saveMangaSnapList t sn

/-- Lookup of a persisted anime snapshot by media id. -/
def dbGetAnime (db : LocalDb) (mediaId : Nat) : Option AnimeSnapshot :=
  db.animeSnapshots.find? (fun s => s.mediaId = mediaId)

/-- Lookup of a persisted manga snapshot by media id. -/
def dbGetManga (db : LocalDb) (mediaId : Nat) : Option MangaSnapshot :=
  db.mangaSnapshots.find? (fun s => s.mediaId = mediaId)

/-- The engine state: the `ManagerImpl` fields read and written by the Syncer
(`sync.go`), the local database, the failed-entry caches, the flag and signal
channel of the drain check, and the oracles standing for the external
collaborators (metadata provider, image downloader).  The job queues appear
through their lengths, which is all `sync.go` reads of them; the
`episodeDownloadJournal` records each request made to
`DownloadAnimeEpisodeImages`, and `errorLogs` counts `logger.Error()` calls. -/
structure EngineState where
  animeCollection : Option Collection
  mangaCollection : Option Collection
  localAnimeCollection : Option Collection
  localMangaCollection : Option Collection
  trackedAnime : List Nat
  trackedManga : List Nat
  localFiles : List LocalFile
  downloadedChapterContainers : List ChapterContainer
  db : LocalDb
  failedAnime : List (Nat × ListEntry)
  failedManga : List (Nat × ListEntry)
  animeJobQueue : Nat
  mangaJobQueue : Nat
  shouldUpdateLocalCollections : Bool
  doneSignals : Nat
  errorLogs : Nat
  assets : List Nat
  metadataOracle : Nat → Option AnimeMetadata
  downloadAnimeImagesOracle : Nat → Option (String × String × List (String × String))
  downloadEpisodeImagesOracle : Nat → List (String × String) → Option (List (String × String))
  downloadMangaImagesOracle : Nat → Option (String × String)
  episodeDownloadJournal : List (Nat × List (String × String))

/-! ## The Local Collection Builder (`synchronizeCollections`) -/

/-- The skeleton data of a list: status, name and custom flag
(everything `synchronizeCollections` copies besides the entries). -/
def skelOf (l : MediaList) : Option MediaListStatus × Option String × Option Bool :=
  (l.status, l.name, l.isCustomList)

/-- Embeds the two skeleton-copy loops of `synchronizeCollections`
(`sync.go` lines 155-181): each remote list whose status is not nil is
re-created with fresh pointers and an empty entry slice. -/
def buildSkeleton (lists : List MediaList) : List MediaList :=
  lists.filterMap (fun l =>
    match l.status with
    | none => none
    | some _ => some { status := ToNewPointer l.status, name := ToNewPointer l.name,
                       isCustomList := ToNewPointer l.isCustomList, entries := [] })

/-- Embeds the entry construction of `synchronizeCollections` (lines 213-251
for anime, 288-326 for manga): deep-copy the media, rewrite banner and all
cover image variants to asset URLs derived from the snapshot paths, and copy
the scalar entry fields through fresh pointers. -/
def buildLocalEntry (e : ListEntry) (snapMediaId : Nat)
    (bannerPath coverPath : String) : ListEntry :=
  let editedMedia : BaseMedia :=
    { BaseMediaDeepCopy e.media with
      bannerImage := FormatAssetUrl snapMediaId bannerPath,
      coverImage := some
        { extraLarge := FormatAssetUrl snapMediaId coverPath,
          large := FormatAssetUrl snapMediaId coverPath,
          medium := FormatAssetUrl snapMediaId coverPath,
          color := FormatAssetUrl snapMediaId coverPath } }
  { id := e.id,
    score := ToNewPointer e.score,
    progress := ToNewPointer e.progress,
    status := ToNewPointer e.status,
    notes := ToNewPointer e.notes,
    repeatCount := ToNewPointer e.repeatCount,
    isPrivate := ToNewPointer e.isPrivate,
    startedAt := match e.startedAt with
      | none => none
      | some d => some { year := ToNewPointer d.year, month := ToNewPointer d.month,
                         day := ToNewPointer d.day },
    completedAt := match e.completedAt with
      | none => none
      | some d => some { year := ToNewPointer d.year, month := ToNewPointer d.month,
                         day := ToNewPointer d.day },
    media := editedMedia }

/-- Embeds the inner placement loop (lines 204-254): walk the local lists,
skip lists whose status is nil, and append the entry to the first list whose
dereferenced status equals the source list's status, then break. -/
def addEntryToMatchingList (lists : List MediaList) (srcStatus : MediaListStatus)
    (e : ListEntry) : List MediaList :=
  match lists with
  | [] => []
  | l :: rest =>
    match l.status with
    | none => l :: addEntryToMatchingList rest srcStatus e
    | some st =>
      if st = srcStatus then { l with entries := l.entries ++ [e] } :: rest
      else l :: addEntryToMatchingList rest srcStatus e

/-- Embeds the per-entry body of the population loop (lines 191-256): skip an
entry unless its media id is tracked and a snapshot is found, otherwise build
the local entry and place it. -/
def placeEntry (tracked : List Nat) (snapLookup : Nat → Option (Nat × String × String))
    (srcStatus : MediaListStatus) (acc : List MediaList) (e : ListEntry) :
    List MediaList :=
  if e.media.id ∈ tracked then
    match snapLookup e.media.id with
    | none => acc
    | some (sid, banner, cover) =>
        addEntryToMatchingList acc srcStatus (buildLocalEntry e sid banner cover)
  else acc

/-- Embeds the outer population loop (lines 187-257): for every remote list
with a non-nil status, place each of its entries. -/
def populateEntries (remoteLists : List MediaList) (tracked : List Nat)
    (snapLookup : Nat → Option (Nat × String × String)) (base : List MediaList) :
    List MediaList :=
  remoteLists.foldl (fun acc rl =>
    match rl.status with
    | none => acc
    | some st => rl.entries.foldl (placeEntry tracked snapLookup st) acc) base

/-- The snapshot map built by `synchronizeCollections` (lines 133-136),
keyed by media id with later snapshots overwriting earlier ones, projected to
the fields the builder uses. -/
def animeSnapLookup (snaps : List AnimeSnapshot) (mediaId : Nat) :
    Option (Nat × String × String) :=
  (List.lookup mediaId
      (snaps.foldl (fun m sn => alInsert m sn.mediaId sn) [])).map
    (fun sn => (sn.mediaId, sn.bannerImagePath, sn.coverImagePath))

/-- Manga counterpart of `animeSnapLookup` (lines 138-141). -/
def mangaSnapLookup (snaps : List MangaSnapshot) (mediaId : Nat) :
    Option (Nat × String × String) :=
  (List.lookup mediaId
      (snaps.foldl (fun m sn => alInsert m sn.mediaId sn) [])).map
    (fun sn => (sn.mediaId, sn.bannerImagePath, sn.coverImagePath))

/-- The local anime collection produced by one Builder pass: the list
skeletons, populated only when the snapshot list is non-empty
(`if len(animeSnapshots) > 0`, line 185). -/
def buildLocalAnimeCollection (ac : Collection) (tracked : List Nat)
    (snaps : List AnimeSnapshot) : Collection :=
  let skel := buildSkeleton ac.lists
  if snaps.isEmpty then { lists := skel }
  else { lists := populateEntries ac.lists tracked (animeSnapLookup snaps) skel }

/-- The local manga collection produced by one Builder pass (line 260). -/
def buildLocalMangaCollection (mc : Collection) (tracked : List Nat)
    (snaps : List MangaSnapshot) : Collection :=
  let skel := buildSkeleton mc.lists
  if snaps.isEmpty then { lists := skel }
  else { lists := populateEntries mc.lists tracked (mangaSnapLookup snaps) skel }

/-- Embeds `Syncer.synchronizeCollections` (lines 118-351).  Returns the new
engine state and whether an error was returned.  An absent remote collection
makes `MustGet` panic, which `HandlePanicInModuleWithError` converts into an
error with no state change.  On a failed anime collection save the function
returns before publishing anything; on a failed manga collection save the
anime collection has already been saved and published. -/
def synchronizeCollections (s : EngineState) : EngineState × Bool :=
  match s.animeCollection, s.mangaCollection with
  | some ac, some mc =>
    let localAnime := buildLocalAnimeCollection ac s.trackedAnime s.db.animeSnapshots
    let localManga := buildLocalMangaCollection mc s.trackedManga s.db.mangaSnapshots
    if s.db.failSaveAnimeCollection then (s, true)
    else
      let s1 := { s with
        db := { s.db with localAnimeCollection := some localAnime },
        localAnimeCollection := some localAnime }
      if s1.db.failSaveMangaCollection then (s1, true)
      else
        ({ s1 with
            db := { s1.db with localMangaCollection := some localManga },
            localMangaCollection := some localManga }, false)
  | _, _ => (s, true)

/-- Embeds `Syncer.checkAndUpdateLocalCollections` (lines 94-111): under the
mutex, if the rebuild-pending flag is set and both queues are empty, run the
Builder (logging its error, if any), clear the flag and send one signal on
`doneUpdatingLocalCollections`. -/
def checkAndUpdateLocalCollections (s : EngineState) : EngineState :=
  if s.shouldUpdateLocalCollections then
    if s.animeJobQueue = 0 ∧ s.mangaJobQueue = 0 then
      let r := synchronizeCollections s
      let s1 := if r.2 then { r.1 with errorLogs := r.1.errorLogs + 1 } else r.1
      { s1 with shouldUpdateLocalCollections := false, doneSignals := s1.doneSignals + 1 }
    else s
  else s

/-! ## Per-entity synchronization (`synchronizeAnime` / `synchronizeManga`) -/

/-- Embeds `Syncer.sendAnimeToFailedQueue` (lines 355-358): sets the entry in
the failed cache keyed by its media id, overwriting a previous one. -/
def sendAnimeToFailedQueue (s : EngineState) (entry : ListEntry) : EngineState :=
  { s with failedAnime := alInsert s.failedAnime entry.media.id entry }

/-- Embeds `Syncer.sendMangaToFailedQueue` (lines 360-363). -/
def sendMangaToFailedQueue (s : EngineState) (entry : ListEntry) : EngineState :=
  { s with failedManga := alInsert s.failedManga entry.media.id entry }

/-- Modelled from the spec (missing helper `ManagerImpl.removeAnime`):
removes the anime entirely from the local database — its snapshot, its assets
and its tracked-media record (spec sections 3 and 4.3). -/
def removeAnime (s : EngineState) (mediaId : Nat) : EngineState :=
  { s with
    db := { s.db with animeSnapshots := s.db.animeSnapshots.filter (fun sn => sn.mediaId ≠ mediaId) },
    assets := s.assets.filter (fun i => i ≠ mediaId),
    trackedAnime := s.trackedAnime.filter (fun i => i ≠ mediaId) }

/-- Modelled from the spec (missing helper `ManagerImpl.removeManga`). -/
def removeManga (s : EngineState) (mediaId : Nat) : EngineState :=
  { s with
    db := { s.db with mangaSnapshots := s.db.mangaSnapshots.filter (fun sn => sn.mediaId ≠ mediaId) },
    assets := s.assets.filter (fun i => i ≠ mediaId),
    trackedManga := s.trackedManga.filter (fun i => i ≠ mediaId) }

/-- Embeds the map of current episode image URLs built at lines 533-539: one
entry per episode of the fresh metadata whose image URL is non-empty.  Go map
iteration order is arbitrary; the metadata's association-list order is used. -/
def currentEpisodeImageUrls (md : AnimeMetadata) : List (String × String) :=
  md.episodes.filterMap (fun p => if p.2.image = "" then none else some (p.1, p.2.image))

/-- Embeds the map of episode images to download built at lines 541-548: the
current episode image URLs whose episode key is not in the snapshot's
`episodeImagePaths`. -/
def episodeImageUrlsToDownload (md : AnimeMetadata) (snap : AnimeSnapshot) :
    List (String × String) :=
  (currentEpisodeImageUrls md).filter
    (fun p => (List.lookup p.1 snap.episodeImagePaths).isNone)

/-- Embeds `Syncer.synchronizeAnime` (lines 459-576).  The metadata provider
and the image downloads are read from the oracles; each request to
`DownloadAnimeEpisodeImages` is recorded in the journal; `logger.Error()`
calls increment `errorLogs`. -/
def synchronizeAnime (s : EngineState) (diff : AnimeDiffResult) : EngineState :=
  match diff.animeEntry with
  | none => s
  | some entry =>
    if s.localFiles.any (fun f => f.mediaId = entry.media.id) then
      if diff.diffType = DiffType.missing ∨ diff.diffType = DiffType.metadata then
        match s.metadataOracle entry.media.id with
        | none =>
            let s1 := sendAnimeToFailedQueue s entry
            { s1 with errorLogs := s1.errorLogs + 1 }
        | some md =>
          if diff.diffType = DiffType.missing then
            match s.downloadAnimeImagesOracle entry.media.id with
            | none => sendAnimeToFailedQueue s entry
            | some (bannerImage, coverImage, episodeImagePaths) =>
                let snapshot : AnimeSnapshot :=
                  { mediaId := entry.media.id,
                    animeMetadata := md,
                    bannerImagePath := bannerImage,
                    coverImagePath := coverImage,
                    episodeImagePaths := episodeImagePaths,
                    referenceKey := GetAnimeReferenceKey entry.media s.localFiles }
                if s.db.failSaveAnimeSnapshot then
                  let s1 := sendAnimeToFailedQueue s entry
                  { s1 with errorLogs := s1.errorLogs + 1 }
                else
                  { s with db := { s.db with
                      animeSnapshots := saveAnimeSnapList s.db.animeSnapshots snapshot } }
          else
            match diff.animeSnapshot with
            | none => s
            | some snap0 =>
                let snap1 := { snap0 with
                  animeMetadata := md,
                  referenceKey := GetAnimeReferenceKey entry.media s.localFiles }
                let toDownload := episodeImageUrlsToDownload md snap1
                if toDownload.isEmpty then
                  if s.db.failSaveAnimeSnapshot then
                    let s1 := sendAnimeToFailedQueue s entry
                    { s1 with errorLogs := s1.errorLogs + 1 }
                  else
                    { s with db := { s.db with
                        animeSnapshots := saveAnimeSnapList s.db.animeSnapshots snap1 } }
                else
                  let s1 := { s with episodeDownloadJournal :=
                      s.episodeDownloadJournal ++ [(entry.media.id, toDownload)] }
                  match s.downloadEpisodeImagesOracle entry.media.id toDownload with
                  | none => sendAnimeToFailedQueue s1 entry
                  | some newPaths =>
                      let mergedPaths :=
                        newPaths.foldl (fun m p => alInsert m p.1 p.2)
                          snap1.episodeImagePaths
                      let snap2 := { snap1 with episodeImagePaths := mergedPaths }
                      if s1.db.failSaveAnimeSnapshot then
                        let s2 := sendAnimeToFailedQueue s1 entry
                        { s2 with errorLogs := s2.errorLogs + 1 }
                      else
                        { s1 with db := { s1.db with
                            animeSnapshots := saveAnimeSnapList s1.db.animeSnapshots snap2 } }
      else s
    else removeAnime s entry.media.id

/-- Embeds `Syncer.synchronizeManga` (lines 582-667).  The list entry and its
status are checked before the chapter containers are collected; a failed list
entry lookup only logs an error. -/
def synchronizeManga (s : EngineState) (diff : MangaDiffResult) : EngineState :=
  match diff.mangaEntry with
  | none => s
  | some entry =>
    match s.mangaCollection with
    | none => s
    | some mc =>
      match GetListEntryFromMangaId mc entry.media.id with
      | none => { s with errorLogs := s.errorLogs + 1 }
      | some listEntry =>
        if listEntry.status.isNone then s
        else
          let eContainers := s.downloadedChapterContainers.filter
            (fun c => c.mediaId = entry.media.id)
          if eContainers.isEmpty then removeManga s entry.media.id
          else
            if diff.diffType = DiffType.missing then
              match s.downloadMangaImagesOracle entry.media.id with
              | none => sendMangaToFailedQueue s entry
              | some (bannerImage, coverImage) =>
                  let snapshot : MangaSnapshot :=
                    { mediaId := entry.media.id,
                      chapterContainers := eContainers,
                      bannerImagePath := bannerImage,
                      coverImagePath := coverImage,
                      referenceKey := GetMangaReferenceKey entry.media eContainers }
                  if s.db.failSaveMangaSnapshot then
                    let s1 := sendMangaToFailedQueue s entry
                    { s1 with errorLogs := s1.errorLogs + 1 }
                  else
                    { s with db := { s.db with
                        mangaSnapshots := saveMangaSnapList s.db.mangaSnapshots snapshot } }
            else
              match diff.diffType, diff.mangaSnapshot with
              | DiffType.metadata, some snap0 =>
                  let snap1 := { snap0 with
                    chapterContainers := eContainers,
                    referenceKey := GetMangaReferenceKey entry.media eContainers }
                  if s.db.failSaveMangaSnapshot then
                    let s1 := sendMangaToFailedQueue s entry
                    { s1 with errorLogs := s1.errorLogs + 1 }
                  else
                    { s with db := { s.db with
                        mangaSnapshots := saveMangaSnapList s.db.mangaSnapshots snap1 } }
              | _, _ => s

/-! ## The two workers and the drain check (`processAnimeJobs` /
`processMangaJobs` / `checkAndUpdateLocalCollections`) as a transition system

For claim C2 the two worker goroutines are modelled as an interleaving
transition system over the data the drain check reads: the two queue lengths,
the `shouldUpdateLocalCollections` flag, each worker's position in its loop
body, and counters of Builder passes and `doneUpdatingLocalCollections`
signals.  The channel receive (`for job := range q.animeJobQueue`, lines 79
and 87) and the flag write (`q.shouldUpdateLocalCollections = true`, lines 80
and 88) are two separate, unsynchronized actions in the code — neither is
under the mutex — so they are two separate steps here (`recv*` and
`setFlag*`); a `check` step is the worker finishing
`synchronizeAnime`/`synchronizeManga` and running
`checkAndUpdateLocalCollections` under the mutex (lines 82, 90, 94-111).
The per-entity synchronization itself touches none of this state, so it is
absorbed into the `check` step.  All jobs are enqueued up front, matching
"for every sequence of jobs processed by the two workers". -/

/-- Where a worker stands in its loop body: blocked on the channel, between
the receive and the flag write, or past the flag write (synchronizing, about
to run the drain check). -/
inductive WorkerPc where
  | idle
  | gotJob
  | working
deriving DecidableEq, Repr

structure WorkerState where
  animeQ : Nat
  mangaQ : Nat
  flag : Bool
  aPc : WorkerPc
  mPc : WorkerPc
  passes : Nat
  signals : Nat
deriving DecidableEq, Repr

/-- The body of `checkAndUpdateLocalCollections` projected onto the worker
state: when the flag is set and both queues are empty, one Builder pass runs,
the flag is cleared and one signal is sent. -/
def runDrainCheck (s : WorkerState) : WorkerState :=
  if s.flag = true ∧ s.animeQ = 0 ∧ s.mangaQ = 0 then
    { s with flag := false, passes := s.passes + 1, signals := s.signals + 1 }
  else s

/-- One interleaved step of the two workers.  A worker receives a job
(`recv*`, the channel receive of lines 79/87), then — as a separate
unsynchronized action — sets the rebuild-pending flag (`setFlag*`, the plain
write of lines 80/88), and after synchronizing runs the drain check under
the mutex (`check*`, lines 82/90 and 94-111). -/
inductive WorkerStep : WorkerState → WorkerState → Prop where
  | recvAnime (s : WorkerState) (hpc : s.aPc = WorkerPc.idle) (hq : s.animeQ ≠ 0) :
      WorkerStep s { s with animeQ := s.animeQ - 1, aPc := WorkerPc.gotJob }
  | setFlagAnime (s : WorkerState) (hpc : s.aPc = WorkerPc.gotJob) :
      WorkerStep s { s with flag := true, aPc := WorkerPc.working }
  | checkAnime (s : WorkerState) (hpc : s.aPc = WorkerPc.working) :
      WorkerStep s { runDrainCheck s with aPc := WorkerPc.idle }
  | recvManga (s : WorkerState) (hpc : s.mPc = WorkerPc.idle) (hq : s.mangaQ ≠ 0) :
      WorkerStep s { s with mangaQ := s.mangaQ - 1, mPc := WorkerPc.gotJob }
  | setFlagManga (s : WorkerState) (hpc : s.mPc = WorkerPc.gotJob) :
      WorkerStep s { s with flag := true, mPc := WorkerPc.working }
  | checkManga (s : WorkerState) (hpc : s.mPc = WorkerPc.working) :
      WorkerStep s { runDrainCheck s with mPc := WorkerPc.idle }

/-- The initial state: `a` anime jobs and `m` manga jobs enqueued, flag clear,
workers idle, no pass run and no signal sent. -/
def workerInit (a m : Nat) : WorkerState :=
  { animeQ := a, mangaQ := m, flag := false, aPc := WorkerPc.idle,
    mPc := WorkerPc.idle, passes := 0, signals := 0 }

/-- Reachability in the worker transition system. -/
def WorkerReachable (s t : WorkerState) : Prop :=
  Relation.ReflTransGen WorkerStep s t

/-- A state in which neither worker can move: both are idle and both queues
are empty (the workers block on their channels). -/
def WorkerTerminal (s : WorkerState) : Prop :=
  ∀ t, ¬ WorkerStep s t

/-! ## Association list lemmas -/

theorem alInsert_lookup_self {α β : Type} [DecidableEq α] (m : List (α × β)) (k : α) (v : β) :
    List.lookup k (alInsert m k v) = some v := by
  induction m with
  | nil => simp [alInsert, List.lookup]
  | cons p t ih =>
    by_cases h : p.1 = k
    · simp [alInsert, h, List.lookup]
    · simp only [alInsert]
      rw [if_neg h]
      simpa [List.lookup, show (k == p.1) = false by simp [Ne.symm h]] using ih

theorem alInsert_lookup_ne {α β : Type} [DecidableEq α] (m : List (α × β)) (k : α) (v : β)
    (k' : α) (h : k' ≠ k) : List.lookup k' (alInsert m k v) = List.lookup k' m := by
  induction m with
  | nil => simp [alInsert, List.lookup, show (k' == k) = false by simp [h]]
  | cons p t ih =>
    by_cases hp : p.1 = k
    · subst hp
      simp [alInsert, List.lookup, show (k' == p.1) = false by simp [h]]
    · simp only [alInsert]
      rw [if_neg hp]
      by_cases hk' : k' = p.1
      · simp [List.lookup, hk']
      · simpa [List.lookup, show (k' == p.1) = false by simp [hk']] using ih

theorem lookup_none_of_not_mem_keys {α β : Type} [DecidableEq α] (l : List (α × β)) (k : α)
    (h : k ∉ l.map Prod.fst) : List.lookup k l = none := by
  induction l with
  | nil => rfl
  | cons p t ih =>
    simp only [List.map_cons, List.mem_cons, not_or] at h
    simp [List.lookup, show (k == p.1) = false by simp [h.1], ih h.2]

/-- Lookup after folding a list of insertions: a key hit by the insertions
takes its (unique, by the Nodup hypothesis) inserted value, any other key
keeps its previous binding. -/
theorem lookup_foldl_alInsert {α β : Type} [DecidableEq α] (l : List (α × β))
    (hnd : (l.map Prod.fst).Nodup) (m : List (α × β)) (k : α) :
    List.lookup k (l.foldl (fun acc p => alInsert acc p.1 p.2) m) =
      match List.lookup k l with
      | some v => some v
      | none => List.lookup k m := by
  induction l generalizing m with
  | nil => simp [List.lookup]
  | cons p t ih =>
    simp only [List.map_cons, List.nodup_cons] at hnd
    simp only [List.foldl_cons]
    rw [ih hnd.2]
    by_cases h : k = p.1
    · subst h
      have ht : List.lookup p.1 t = none :=
        lookup_none_of_not_mem_keys t p.1 hnd.1
      simp [List.lookup, ht, alInsert_lookup_self]
    · simp [List.lookup, show (k == p.1) = false by simp [h],
        alInsert_lookup_ne m p.1 p.2 k h]

/-! ## Skeleton preservation lemmas for the Builder -/

theorem addEntryToMatchingList_map_skelOf (ls : List MediaList) (st : MediaListStatus)
    (e : ListEntry) : (addEntryToMatchingList ls st e).map skelOf = ls.map skelOf := by
  induction ls with
  | nil => rfl
  | cons l rest ih =>
    cases hs : l.status with
    | none => simp [addEntryToMatchingList, hs, ih]
    | some st' =>
      by_cases h : st' = st
      · simp [addEntryToMatchingList, hs, h, skelOf]
      · simp [addEntryToMatchingList, hs, h, ih]

theorem placeEntry_map_skelOf (tracked : List Nat)
    (snapLookup : Nat → Option (Nat × String × String)) (st : MediaListStatus)
    (acc : List MediaList) (e : ListEntry) :
    (placeEntry tracked snapLookup st acc e).map skelOf = acc.map skelOf := by
  unfold placeEntry
  by_cases h : e.media.id ∈ tracked
  · cases hlk : snapLookup e.media.id with
    | none => simp [h, hlk]
    | some v => simp [h, hlk, addEntryToMatchingList_map_skelOf]
  · simp [h]

theorem foldl_placeEntry_map_skelOf (tracked : List Nat)
    (snapLookup : Nat → Option (Nat × String × String)) (st : MediaListStatus)
    (es : List ListEntry) (acc : List MediaList) :
    ((es.foldl (placeEntry tracked snapLookup st) acc).map skelOf) = acc.map skelOf := by
  induction es generalizing acc with
  | nil => rfl
  | cons e t ih => rw [List.foldl_cons, ih, placeEntry_map_skelOf]

theorem populateEntries_map_skelOf (remoteLists : List MediaList) (tracked : List Nat)
    (snapLookup : Nat → Option (Nat × String × String)) (base : List MediaList) :
    (populateEntries remoteLists tracked snapLookup base).map skelOf = base.map skelOf := by
  induction remoteLists generalizing base with
  | nil => rfl
  | cons rl t ih =>
    unfold populateEntries at ih ⊢
    cases hs : rl.status with
    | none => simp only [List.foldl_cons, hs]; exact ih base
    | some st =>
      simp only [List.foldl_cons, hs]
      rw [ih, foldl_placeEntry_map_skelOf]

theorem buildSkeleton_map_skelOf (ls : List MediaList) :
    (buildSkeleton ls).map skelOf
      = (ls.filter (fun l => l.status.isSome)).map skelOf := by
  induction ls with
  | nil => rfl
  | cons l t ih =>
    cases hs : l.status with
    | none => simpa [buildSkeleton, hs, List.filter_cons] using ih
    | some st =>
      simp only [buildSkeleton, List.filterMap_cons, hs, List.filter_cons, Option.isSome_some]
      simpa [skelOf, ToNewPointer, hs] using ih

theorem buildSkeleton_entries_empty (ls : List MediaList) :
    ∀ l ∈ buildSkeleton ls, l.entries = [] := by
  induction ls with
  | nil => simp [buildSkeleton]
  | cons l t ih =>
    cases hs : l.status with
    | none => simpa [buildSkeleton, hs] using ih
    | some st =>
      intro x hx
      simp only [buildSkeleton, List.filterMap_cons, hs, List.mem_cons] at hx
      rcases hx with rfl | hx
      · rfl
      · exact ih x hx

theorem status_mem_of_map_skelOf {l1 l2 : List MediaList}
    (h : l1.map skelOf = l2.map skelOf) (l : MediaList) (hl : l ∈ l1) :
    ∃ l', l' ∈ l2 ∧ l'.status = l.status := by
  have : skelOf l ∈ l2.map skelOf := h ▸ List.mem_map_of_mem skelOf hl
  rcases List.mem_map.1 this with ⟨l', hl', hsk⟩
  exact ⟨l', hl', by simpa [skelOf, Prod.ext_iff] using congrArg (fun p => p.1) hsk⟩

/-- C3 (claim): for every pair of remote collections, the local collections
produced by a Builder pass contain no list whose status is null, and their
lists are exactly the non-null-status remote lists in remote order, each
preserving the remote list's status, name and `isCustomList` flag. -/
theorem c3_local_list_skeletons (ac mc : Collection) (trA trM : List Nat)
    (snapsA : List AnimeSnapshot) (snapsM : List MangaSnapshot) :
    ((buildLocalAnimeCollection ac trA snapsA).lists.map skelOf
        = (ac.lists.filter (fun l => l.status.isSome)).map skelOf
      ∧ ∀ l ∈ (buildLocalAnimeCollection ac trA snapsA).lists, l.status ≠ none)
    ∧ ((buildLocalMangaCollection mc trM snapsM).lists.map skelOf
        = (mc.lists.filter (fun l => l.status.isSome)).map skelOf
      ∧ ∀ l ∈ (buildLocalMangaCollection mc trM snapsM).lists, l.status ≠ none) := by
  have hmapA : (buildLocalAnimeCollection ac trA snapsA).lists.map skelOf
      = (ac.lists.filter (fun l => l.status.isSome)).map skelOf := by
    unfold buildLocalAnimeCollection
    split
    · exact buildSkeleton_map_skelOf ac.lists
    · rw [populateEntries_map_skelOf]
      exact buildSkeleton_map_skelOf ac.lists
  have hmapM : (buildLocalMangaCollection mc trM snapsM).lists.map skelOf
      = (mc.lists.filter (fun l => l.status.isSome)).map skelOf := by
    unfold buildLocalMangaCollection
    split
    · exact buildSkeleton_map_skelOf mc.lists
    · rw [populateEntries_map_skelOf]
      exact buildSkeleton_map_skelOf mc.lists
  refine ⟨⟨hmapA, ?_⟩, ⟨hmapM, ?_⟩⟩
  · intro l hl
    rcases status_mem_of_map_skelOf hmapA l hl with ⟨l', hl', hst⟩
    rcases List.mem_filter.1 hl' with ⟨_, hsome⟩
    rw [hst] at hsome
    simp only [Option.isSome_iff_exists] at hsome
    rcases hsome with ⟨st, hst'⟩
    simp [hst']
  · intro l hl
    rcases status_mem_of_map_skelOf hmapM l hl with ⟨l', hl', hst⟩
    rcases List.mem_filter.1 hl' with ⟨_, hsome⟩
    rw [hst] at hsome
    simp only [Option.isSome_iff_exists] at hsome
    rcases hsome with ⟨st, hst'⟩
    simp [hst']

/-! ## Placement lemmas for the Builder (claim C4) -/

/-- Provenance of a placed local entry: it was built by `buildLocalEntry` from
a remote entry of a remote list with the given status, its media id is
tracked, and the snapshot lookup succeeded. -/
def EntryProvenance (remoteLists : List MediaList) (tracked : List Nat)
    (snapLookup : Nat → Option (Nat × String × String)) (st : MediaListStatus)
    (e' : ListEntry) : Prop :=
  ∃ rl e sid banner cover, rl ∈ remoteLists ∧ rl.status = some st ∧ e ∈ rl.entries ∧
    e.media.id ∈ tracked ∧ snapLookup e.media.id = some (sid, banner, cover) ∧
    e' = buildLocalEntry e sid banner cover

/-- Every entry of every populated list has a provenance, the containing
list's status matches the provenance status, and no list earlier in the local
collection has that status (the first matching list wins). -/
def PlacedOK (remoteLists : List MediaList) (tracked : List Nat)
    (snapLookup : Nat → Option (Nat × String × String)) (locals : List MediaList) : Prop :=
  ∀ i l', locals.get? i = some l' → ∀ e' ∈ l'.entries,
    ∃ st, l'.status = some st ∧
      EntryProvenance remoteLists tracked snapLookup st e' ∧
      ∀ j, j < i → ∀ lj, locals.get? j = some lj → lj.status ≠ some st

theorem status_get?_eq_of_skel {l1 l2 : List MediaList}
    (h : l1.map skelOf = l2.map skelOf) (j : Nat) :
    (l1.get? j).map (fun l => l.status) = (l2.get? j).map (fun l => l.status) := by
  have h1 : (l1.map skelOf).get? j = (l2.map skelOf).get? j := by rw [h]
  simp only [List.get?_map] at h1
  have h2 := congrArg (Option.map (fun p => p.1)) h1
  simpa [Option.map_map, Function.comp, skelOf] using h2

theorem earlier_status_transfer {l1 l2 : List MediaList}
    (h : l1.map skelOf = l2.map skelOf) (i : Nat) (st : MediaListStatus)
    (h1 : ∀ j, j < i → ∀ lj, l1.get? j = some lj → lj.status ≠ some st) :
    ∀ j, j < i → ∀ lj, l2.get? j = some lj → lj.status ≠ some st := by
  intro j hj lj hg
  have hs := status_get?_eq_of_skel h j
  rw [hg] at hs
  cases hl1 : l1.get? j with
  | none => rw [hl1] at hs; exact absurd hs (by simp)
  | some lj' =>
    rw [hl1] at hs
    have : lj'.status = lj.status := by simpa using hs
    rw [← this]
    exact h1 j hj lj' hl1

theorem addEntryToMatchingList_cons_none {l : MediaList} (hs : l.status = none)
    (rest : List MediaList) (st : MediaListStatus) (e : ListEntry) :
    addEntryToMatchingList (l :: rest) st e = l :: addEntryToMatchingList rest st e := by
  simp [addEntryToMatchingList, hs]

theorem addEntryToMatchingList_cons_eq {l : MediaList} {st' : MediaListStatus}
    (hs : l.status = some st') {st : MediaListStatus} (h : st' = st)
    (rest : List MediaList) (e : ListEntry) :
    addEntryToMatchingList (l :: rest) st e
      = { l with entries := l.entries ++ [e] } :: rest := by
  simp [addEntryToMatchingList, hs, h]

theorem addEntryToMatchingList_cons_ne {l : MediaList} {st' : MediaListStatus}
    (hs : l.status = some st') {st : MediaListStatus} (h : st' ≠ st)
    (rest : List MediaList) (e : ListEntry) :
    addEntryToMatchingList (l :: rest) st e = l :: addEntryToMatchingList rest st e := by
  simp [addEntryToMatchingList, hs, h]

/-- Case analysis for membership in the result of `addEntryToMatchingList`:
an entry of the result either was already present at the same position, or is
the newly placed entry, in which case the position's status is the source
status and no earlier list carries it. -/
theorem addEntryToMatchingList_get?_mem (ls : List MediaList) (st : MediaListStatus)
    (e : ListEntry) (i : Nat) (l' : MediaList)
    (hget : (addEntryToMatchingList ls st e).get? i = some l')
    (e' : ListEntry) (he' : e' ∈ l'.entries) :
    (∃ l0, ls.get? i = some l0 ∧ l0.status = l'.status ∧ e' ∈ l0.entries) ∨
    (e' = e ∧ l'.status = some st ∧
      ∀ j, j < i → ∀ lj, ls.get? j = some lj → lj.status ≠ some st) := by
  induction ls generalizing i with
  | nil => simp [addEntryToMatchingList] at hget
  | cons l rest ih =>
    cases hs : l.status with
    | none =>
      rw [addEntryToMatchingList_cons_none hs] at hget
      cases i with
      | zero =>
        simp only [List.get?] at hget
        injection hget with hget
        subst hget
        exact Or.inl ⟨l, by simp, rfl, he'⟩
      | succ i' =>
        simp only [List.get?] at hget
        rcases ih i' hget with ⟨l0, hg0, hst0, hm0⟩ | ⟨rfl, hst', hfirst⟩
        · exact Or.inl ⟨l0, by simpa using hg0, hst0, hm0⟩
        · refine Or.inr ⟨rfl, hst', ?_⟩
          intro j hj lj hg
          cases j with
          | zero =>
            simp only [List.get?] at hg
            injection hg with hg
            subst hg
            simp [hs]
          | succ j' =>
            simp only [List.get?] at hg
            exact hfirst j' (Nat.lt_of_succ_lt_succ hj) lj hg
    | some st' =>
      by_cases hst : st' = st
      · rw [addEntryToMatchingList_cons_eq hs hst] at hget
        cases i with
        | zero =>
          simp only [List.get?] at hget
          injection hget with hget
          subst hget
          simp only [List.mem_append, List.mem_singleton] at he'
          rcases he' with hm | rfl
          · exact Or.inl ⟨l, by simp, rfl, hm⟩
          · refine Or.inr ⟨rfl, ?_, by intro j hj lj hg; omega⟩
            rw [← hst]
            exact hs
        | succ i' =>
          simp only [List.get?] at hget
          exact Or.inl ⟨l', by simpa using hget, rfl, he'⟩
      · rw [addEntryToMatchingList_cons_ne hs hst] at hget
        cases i with
        | zero =>
          simp only [List.get?] at hget
          injection hget with hget
          subst hget
          exact Or.inl ⟨l, by simp, rfl, he'⟩
        | succ i' =>
          simp only [List.get?] at hget
          rcases ih i' hget with ⟨l0, hg0, hst0, hm0⟩ | ⟨rfl, hst'', hfirst⟩
          · exact Or.inl ⟨l0, by simpa using hg0, hst0, hm0⟩
          · refine Or.inr ⟨rfl, hst'', ?_⟩
            intro j hj lj hg
            cases j with
            | zero =>
              simp only [List.get?] at hg
              injection hg with hg
              subst hg
              simp [hs, hst]
            | succ j' =>
              simp only [List.get?] at hg
              exact hfirst j' (Nat.lt_of_succ_lt_succ hj) lj hg

theorem placeEntry_placedOK {remoteLists : List MediaList} {tracked : List Nat}
    {snapLookup : Nat → Option (Nat × String × String)} {st : MediaListStatus}
    {rl : MediaList} (hrl : rl ∈ remoteLists) (hst : rl.status = some st)
    {acc : List MediaList} {e : ListEntry} (he : e ∈ rl.entries)
    (hacc : PlacedOK remoteLists tracked snapLookup acc) :
    PlacedOK remoteLists tracked snapLookup (placeEntry tracked snapLookup st acc e) := by
  have hskel : (placeEntry tracked snapLookup st acc e).map skelOf = acc.map skelOf :=
    placeEntry_map_skelOf tracked snapLookup st acc e
  unfold placeEntry at hskel ⊢
  by_cases htr : e.media.id ∈ tracked
  · simp only [htr, if_true] at hskel ⊢
    cases hlk : snapLookup e.media.id with
    | none => simpa [hlk] using hacc
    | some v =>
      obtain ⟨sid, banner, cover⟩ := v
      simp only [hlk] at hskel ⊢
      intro i l' hget e' he'
      rcases addEntryToMatchingList_get?_mem acc st _ i l' hget e' he' with
        ⟨l0, hg0, hst0, hm0⟩ | ⟨rfl, hst', hfirst⟩
      · obtain ⟨st0, hs0, hprov, hearlier⟩ := hacc i l0 hg0 e' hm0
        refine ⟨st0, by rw [← hst0]; exact hs0, hprov, ?_⟩
        exact earlier_status_transfer hskel.symm i st0 hearlier
      · refine ⟨st, hst', ⟨rl, e, sid, banner, cover, hrl, hst, he, htr, hlk, rfl⟩, ?_⟩
        exact earlier_status_transfer hskel.symm i st hfirst
  · simpa [htr] using hacc

theorem foldl_placeEntry_placedOK {remoteLists : List MediaList} {tracked : List Nat}
    {snapLookup : Nat → Option (Nat × String × String)} {st : MediaListStatus}
    {rl : MediaList} (hrl : rl ∈ remoteLists) (hst : rl.status = some st)
    (es : List ListEntry) (hsub : ∀ e ∈ es, e ∈ rl.entries)
    (acc : List MediaList) (hacc : PlacedOK remoteLists tracked snapLookup acc) :
    PlacedOK remoteLists tracked snapLookup
      (es.foldl (placeEntry tracked snapLookup st) acc) := by
  induction es generalizing acc with
  | nil => simpa using hacc
  | cons e t ih =>
    rw [List.foldl_cons]
    exact ih (fun x hx => hsub x (List.mem_cons_of_mem e hx)) _
      (placeEntry_placedOK hrl hst (hsub e (List.mem_cons_self e t)) hacc)

theorem populateEntries_placedOK {remoteLists : List MediaList} {tracked : List Nat}
    {snapLookup : Nat → Option (Nat × String × String)}
    (rls : List MediaList) (hsub : ∀ l ∈ rls, l ∈ remoteLists)
    (acc : List MediaList) (hacc : PlacedOK remoteLists tracked snapLookup acc) :
    PlacedOK remoteLists tracked snapLookup
      (populateEntries rls tracked snapLookup acc) := by
  induction rls generalizing acc with
  | nil => simpa [populateEntries] using hacc
  | cons rl t ih =>
    unfold populateEntries at ih ⊢
    rw [List.foldl_cons]
    cases hs : rl.status with
    | none =>
      simp only [hs]
      exact ih (fun x hx => hsub x (List.mem_cons_of_mem rl hx)) acc hacc
    | some st =>
      simp only [hs]
      refine ih (fun x hx => hsub x (List.mem_cons_of_mem rl hx)) _ ?_
      exact foldl_placeEntry_placedOK (hsub rl (List.mem_cons_self rl t)) hs
        rl.entries (fun _ hx => hx) acc hacc

theorem buildSkeleton_placedOK (remoteLists : List MediaList) (tracked : List Nat)
    (snapLookup : Nat → Option (Nat × String × String)) (ls : List MediaList) :
    PlacedOK remoteLists tracked snapLookup (buildSkeleton ls) := by
  intro i l' hget e' he'
  have hmem : l' ∈ buildSkeleton ls := List.get?_mem hget
  rw [buildSkeleton_entries_empty ls l' hmem] at he'
  simp at he'

theorem populate_skeleton_placedOK (rls : List MediaList) (tracked : List Nat)
    (snapLookup : Nat → Option (Nat × String × String)) :
    PlacedOK rls tracked snapLookup
      (populateEntries rls tracked snapLookup (buildSkeleton rls)) :=
  populateEntries_placedOK rls (fun _ h => h) (buildSkeleton rls)
    (buildSkeleton_placedOK rls tracked snapLookup (rls))

/-- C4 (claim): for every entry placed in a local collection by a Builder
pass, its media id is in the tracked map and has a persisted snapshot (remote
entries failing either test are skipped), it is appended to the first local
list whose status equals its source list's status and to no other list, and
its media's banner image and every cover image size variant are rewritten to
Asset-Store URLs derived from the snapshot's banner and cover image paths. -/
theorem c4_placed_entries :
    (∀ (ac : Collection) (tracked : List Nat) (snaps : List AnimeSnapshot)
        (i : Nat) (l' : MediaList) (e' : ListEntry),
      (buildLocalAnimeCollection ac tracked snaps).lists.get? i = some l' →
      e' ∈ l'.entries →
      ∃ st rl e sn,
        l'.status = some st ∧ rl ∈ ac.lists ∧ rl.status = some st ∧ e ∈ rl.entries ∧
        e.media.id ∈ tracked ∧
        List.lookup e.media.id
          (snaps.foldl (fun m s0 => alInsert m s0.mediaId s0) []) = some sn ∧
        e' = buildLocalEntry e sn.mediaId sn.bannerImagePath sn.coverImagePath ∧
        e'.media.id = e.media.id ∧
        e'.media.bannerImage = FormatAssetUrl sn.mediaId sn.bannerImagePath ∧
        e'.media.coverImage = some
          { extraLarge := FormatAssetUrl sn.mediaId sn.coverImagePath,
            large := FormatAssetUrl sn.mediaId sn.coverImagePath,
            medium := FormatAssetUrl sn.mediaId sn.coverImagePath,
            color := FormatAssetUrl sn.mediaId sn.coverImagePath } ∧
        (∀ j, j < i → ∀ lj,
          (buildLocalAnimeCollection ac tracked snaps).lists.get? j = some lj →
          lj.status ≠ some st))
    ∧ (∀ (mc : Collection) (tracked : List Nat) (snaps : List MangaSnapshot)
        (i : Nat) (l' : MediaList) (e' : ListEntry),
      (buildLocalMangaCollection mc tracked snaps).lists.get? i = some l' →
      e' ∈ l'.entries →
      ∃ st rl e sn,
        l'.status = some st ∧ rl ∈ mc.lists ∧ rl.status = some st ∧ e ∈ rl.entries ∧
        e.media.id ∈ tracked ∧
        List.lookup e.media.id
          (snaps.foldl (fun m s0 => alInsert m s0.mediaId s0) []) = some sn ∧
        e' = buildLocalEntry e sn.mediaId sn.bannerImagePath sn.coverImagePath ∧
        e'.media.id = e.media.id ∧
        e'.media.bannerImage = FormatAssetUrl sn.mediaId sn.bannerImagePath ∧
        e'.media.coverImage = some
          { extraLarge := FormatAssetUrl sn.mediaId sn.coverImagePath,
            large := FormatAssetUrl sn.mediaId sn.coverImagePath,
            medium := FormatAssetUrl sn.mediaId sn.coverImagePath,
            color := FormatAssetUrl sn.mediaId sn.coverImagePath } ∧
        (∀ j, j < i → ∀ lj,
          (buildLocalMangaCollection mc tracked snaps).lists.get? j = some lj →
          lj.status ≠ some st)) := by
  constructor
  · intro ac tracked snaps i l' e' hget he'
    unfold buildLocalAnimeCollection at hget ⊢
    by_cases hemp : snaps.isEmpty
    · rw [if_pos hemp] at hget
      have hmem : l' ∈ buildSkeleton ac.lists := List.get?_mem hget
      rw [buildSkeleton_entries_empty ac.lists l' hmem] at he'
      simp at he'
    · rw [if_neg hemp] at hget
      obtain ⟨st, hstl, ⟨rl, e, sid, banner, cover, hrl, hrlst, hme, htr, hlk, rfl⟩,
        hearlier⟩ := populate_skeleton_placedOK ac.lists tracked
          (animeSnapLookup snaps) i l' hget e' he'
      unfold animeSnapLookup at hlk
      cases hfind : List.lookup e.media.id
          (snaps.foldl (fun m s0 => alInsert m s0.mediaId s0) []) with
      | none => rw [hfind] at hlk; simp at hlk
      | some sn =>
        rw [hfind] at hlk
        have hcomp : sid = sn.mediaId ∧ banner = sn.bannerImagePath ∧
            cover = sn.coverImagePath := by
          have hsome : some (sn.mediaId, sn.bannerImagePath, sn.coverImagePath)
              = some (sid, banner, cover) := hlk
          injection hsome with h
          exact ⟨congrArg Prod.fst h.symm, congrArg (fun p => p.2.1) h.symm,
            congrArg (fun p => p.2.2) h.symm⟩
        obtain ⟨h1, h2, h3⟩ := hcomp
        subst h1; subst h2; subst h3
        refine ⟨st, rl, e, sn, hstl, hrl, hrlst, hme, htr, hfind, rfl, ?_, ?_, ?_, ?_⟩
        · simp [buildLocalEntry, BaseMediaDeepCopy]
        · simp [buildLocalEntry, BaseMediaDeepCopy]
        · simp [buildLocalEntry, BaseMediaDeepCopy]
        · intro j hj lj hgj
          rw [if_neg hemp] at hgj
          exact hearlier j hj lj hgj
  · intro mc tracked snaps i l' e' hget he'
    unfold buildLocalMangaCollection at hget ⊢
    by_cases hemp : snaps.isEmpty
    · rw [if_pos hemp] at hget
      have hmem : l' ∈ buildSkeleton mc.lists := List.get?_mem hget
      rw [buildSkeleton_entries_empty mc.lists l' hmem] at he'
      simp at he'
    · rw [if_neg hemp] at hget
      obtain ⟨st, hstl, ⟨rl, e, sid, banner, cover, hrl, hrlst, hme, htr, hlk, rfl⟩,
        hearlier⟩ := populate_skeleton_placedOK mc.lists tracked
          (mangaSnapLookup snaps) i l' hget e' he'
      unfold mangaSnapLookup at hlk
      cases hfind : List.lookup e.media.id
          (snaps.foldl (fun m s0 => alInsert m s0.mediaId s0) []) with
      | none => rw [hfind] at hlk; simp at hlk
      | some sn =>
        rw [hfind] at hlk
        have hcomp : sid = sn.mediaId ∧ banner = sn.bannerImagePath ∧
            cover = sn.coverImagePath := by
          have hsome : some (sn.mediaId, sn.bannerImagePath, sn.coverImagePath)
              = some (sid, banner, cover) := hlk
          injection hsome with h
          exact ⟨congrArg Prod.fst h.symm, congrArg (fun p => p.2.1) h.symm,
            congrArg (fun p => p.2.2) h.symm⟩
        obtain ⟨h1, h2, h3⟩ := hcomp
        subst h1; subst h2; subst h3
        refine ⟨st, rl, e, sn, hstl, hrl, hrlst, hme, htr, hfind, rfl, ?_, ?_, ?_, ?_⟩
        · simp [buildLocalEntry, BaseMediaDeepCopy]
        · simp [buildLocalEntry, BaseMediaDeepCopy]
        · simp [buildLocalEntry, BaseMediaDeepCopy]
        · intro j hj lj hgj
          rw [if_neg hemp] at hgj
          exact hearlier j hj lj hgj

/-! ## Frame and idempotence of the Builder -/

/-- Frame property of `synchronizeCollections`: the only state it may change
is the two stored and the two published local collections. -/
theorem synchronizeCollections_frame (s : EngineState) :
    (synchronizeCollections s).1.animeCollection = s.animeCollection ∧
    (synchronizeCollections s).1.mangaCollection = s.mangaCollection ∧
    (synchronizeCollections s).1.trackedAnime = s.trackedAnime ∧
    (synchronizeCollections s).1.trackedManga = s.trackedManga ∧
    (synchronizeCollections s).1.localFiles = s.localFiles ∧
    (synchronizeCollections s).1.downloadedChapterContainers
      = s.downloadedChapterContainers ∧
    (synchronizeCollections s).1.failedAnime = s.failedAnime ∧
    (synchronizeCollections s).1.failedManga = s.failedManga ∧
    (synchronizeCollections s).1.animeJobQueue = s.animeJobQueue ∧
    (synchronizeCollections s).1.mangaJobQueue = s.mangaJobQueue ∧
    (synchronizeCollections s).1.shouldUpdateLocalCollections
      = s.shouldUpdateLocalCollections ∧
    (synchronizeCollections s).1.doneSignals = s.doneSignals ∧
    (synchronizeCollections s).1.errorLogs = s.errorLogs ∧
    (synchronizeCollections s).1.assets = s.assets ∧
    (synchronizeCollections s).1.episodeDownloadJournal = s.episodeDownloadJournal ∧
    (synchronizeCollections s).1.db.animeSnapshots = s.db.animeSnapshots ∧
    (synchronizeCollections s).1.db.mangaSnapshots = s.db.mangaSnapshots ∧
    (synchronizeCollections s).1.db.failSaveAnimeCollection
      = s.db.failSaveAnimeCollection ∧
    (synchronizeCollections s).1.db.failSaveMangaCollection
      = s.db.failSaveMangaCollection ∧
    (synchronizeCollections s).1.db.failSaveAnimeSnapshot
      = s.db.failSaveAnimeSnapshot ∧
    (synchronizeCollections s).1.db.failSaveMangaSnapshot
      = s.db.failSaveMangaSnapshot := by
  by_cases h1 : s.db.failSaveAnimeCollection <;>
    by_cases h2 : s.db.failSaveMangaCollection <;>
      cases hac : s.animeCollection <;> cases hmc : s.mangaCollection <;>
        simp [synchronizeCollections, hac, hmc, h1, h2]

/-- C9 (claim): for every Builder pass, the remote anime and manga
collections held by the Manager are not mutated: in the value-semantics
embedding every edit happens on newly built values, and both remote
collections are equal before and after `synchronizeCollections` runs. -/
theorem c9_remote_collections_unchanged (s : EngineState) :
    (synchronizeCollections s).1.animeCollection = s.animeCollection ∧
    (synchronizeCollections s).1.mangaCollection = s.mangaCollection :=
  ⟨(synchronizeCollections_frame s).1, (synchronizeCollections_frame s).2.1⟩

/-- C8 (claim): the Builder is idempotent and deterministic — running
`synchronizeCollections` twice from any state yields the same stored and
published local collections as a single run (the functions are pure, so
determinism is by construction, and value equality gives byte-identical
serialized output). -/
theorem c8_builder_idempotent (s : EngineState) :
    (synchronizeCollections (synchronizeCollections s).1).1.localAnimeCollection
        = (synchronizeCollections s).1.localAnimeCollection ∧
    (synchronizeCollections (synchronizeCollections s).1).1.localMangaCollection
        = (synchronizeCollections s).1.localMangaCollection ∧
    (synchronizeCollections (synchronizeCollections s).1).1.db.localAnimeCollection
        = (synchronizeCollections s).1.db.localAnimeCollection ∧
    (synchronizeCollections (synchronizeCollections s).1).1.db.localMangaCollection
        = (synchronizeCollections s).1.db.localMangaCollection := by
  by_cases h1 : s.db.failSaveAnimeCollection <;>
    by_cases h2 : s.db.failSaveMangaCollection <;>
      cases hac : s.animeCollection <;> cases hmc : s.mangaCollection <;>
        simp [synchronizeCollections, hac, hmc, h1, h2]

/-! ## Claim C1: persistence of the two local collections is not all-or-nothing -/

/-- An empty local database with all save operations succeeding. -/
def emptyDb : LocalDb :=
  { animeSnapshots := [], mangaSnapshots := [],
    localAnimeCollection := none, localMangaCollection := none,
    failSaveAnimeCollection := false, failSaveMangaCollection := false,
    failSaveAnimeSnapshot := false, failSaveMangaSnapshot := false }

/-- A baseline engine state: empty remote collections present, nothing
tracked, all oracles failing, no pending work. -/
def baseState : EngineState :=
  { animeCollection := some { lists := [] }, mangaCollection := some { lists := [] },
    localAnimeCollection := none, localMangaCollection := none,
    trackedAnime := [], trackedManga := [], localFiles := [],
    downloadedChapterContainers := [], db := emptyDb,
    failedAnime := [], failedManga := [],
    animeJobQueue := 0, mangaJobQueue := 0,
    shouldUpdateLocalCollections := false, doneSignals := 0, errorLogs := 0,
    assets := [],
    metadataOracle := fun _ => none,
    downloadAnimeImagesOracle := fun _ => none,
    downloadEpisodeImagesOracle := fun _ _ => none,
    downloadMangaImagesOracle := fun _ => none,
    episodeDownloadJournal := [] }

/-- A state in which saving the local manga collection fails while saving the
local anime collection succeeds. -/
def c1State : EngineState :=
  { baseState with db := { emptyDb with failSaveMangaCollection := true } }

/-- C1 (counterexample): when saving the local manga collection fails, the
Builder pass returns an error, yet the Manager's published local anime
collection has already changed — persistence of the pair is not
all-or-nothing. -/
theorem c1_counterexample :
    (synchronizeCollections c1State).2 = true ∧
    (synchronizeCollections c1State).1.localAnimeCollection
      ≠ c1State.localAnimeCollection := by
  refine ⟨rfl, ?_⟩
  intro h
  have hval : (synchronizeCollections c1State).1.localAnimeCollection
      = some { lists := [] } := rfl
  have hpre : c1State.localAnimeCollection = none := rfl
  rw [hval, hpre] at h
  exact Option.noConfusion h

/-- C1 (amended): if saving the local anime collection fails, the Builder
pass changes nothing; if saving the local manga collection fails after the
anime save succeeded, the stored and published local manga collection are
unchanged, while the stored and published local anime collection have already
been replaced by the freshly built one. -/
theorem c1_amended_persistence (s : EngineState) :
    (s.db.failSaveAnimeCollection = true → synchronizeCollections s = (s, true)) ∧
    (∀ ac mc, s.animeCollection = some ac → s.mangaCollection = some mc →
      s.db.failSaveAnimeCollection = false → s.db.failSaveMangaCollection = true →
      (synchronizeCollections s).2 = true ∧
      (synchronizeCollections s).1.db.localMangaCollection
        = s.db.localMangaCollection ∧
      (synchronizeCollections s).1.localMangaCollection = s.localMangaCollection ∧
      (synchronizeCollections s).1.db.localAnimeCollection
        = some (buildLocalAnimeCollection ac s.trackedAnime s.db.animeSnapshots) ∧
      (synchronizeCollections s).1.localAnimeCollection
        = some (buildLocalAnimeCollection ac s.trackedAnime s.db.animeSnapshots)) := by
  constructor
  · intro h1
    cases hac : s.animeCollection <;> cases hmc : s.mangaCollection <;>
      simp [synchronizeCollections, hac, hmc, h1]
  · intro ac mc hac hmc h1 h2
    simp [synchronizeCollections, hac, hmc, h1, h2]

/-- C1 (amended, witness): both branches of the amended statement hold at
concrete states. -/
theorem c1_amended_persistence_witness :
    (synchronizeCollections
        { baseState with db := { emptyDb with failSaveAnimeCollection := true } }
      = ({ baseState with db := { emptyDb with failSaveAnimeCollection := true } },
          true)) ∧
    ((synchronizeCollections c1State).2 = true ∧
      (synchronizeCollections c1State).1.db.localMangaCollection
        = c1State.db.localMangaCollection ∧
      (synchronizeCollections c1State).1.localMangaCollection
        = c1State.localMangaCollection ∧
      (synchronizeCollections c1State).1.db.localAnimeCollection
        = some (buildLocalAnimeCollection { lists := [] } c1State.trackedAnime
            c1State.db.animeSnapshots) ∧
      (synchronizeCollections c1State).1.localAnimeCollection
        = some (buildLocalAnimeCollection { lists := [] } c1State.trackedAnime
            c1State.db.animeSnapshots)) :=
  ⟨(c1_amended_persistence _).1 rfl,
   (c1_amended_persistence c1State).2 { lists := [] } { lists := [] } rfl rfl rfl rfl⟩

/-! ## Claim C10: a Builder error does not block the drain protocol -/

theorem checkAndUpdateLocalCollections_noop (t : EngineState)
    (ht : t.shouldUpdateLocalCollections = false) :
    checkAndUpdateLocalCollections t = t := by
  simp [checkAndUpdateLocalCollections, ht]

/-- C10 (claim): if a Builder pass invoked from the drain check returns an
error, the Syncer still clears the rebuild-pending flag and still sends the
`doneUpdatingLocalCollections` signal; the error is only logged (the queues
are untouched), and the rebuild is not retried until a later job sets the
flag again (a second drain check is a no-op). -/
theorem c10_builder_error_drain (s : EngineState)
    (hflag : s.shouldUpdateLocalCollections = true)
    (hq1 : s.animeJobQueue = 0) (hq2 : s.mangaJobQueue = 0)
    (herr : (synchronizeCollections s).2 = true) :
    (checkAndUpdateLocalCollections s).shouldUpdateLocalCollections = false ∧
    (checkAndUpdateLocalCollections s).doneSignals = s.doneSignals + 1 ∧
    (checkAndUpdateLocalCollections s).errorLogs = s.errorLogs + 1 ∧
    (checkAndUpdateLocalCollections s).animeJobQueue = s.animeJobQueue ∧
    (checkAndUpdateLocalCollections s).mangaJobQueue = s.mangaJobQueue ∧
    checkAndUpdateLocalCollections (checkAndUpdateLocalCollections s)
      = checkAndUpdateLocalCollections s := by
  obtain ⟨hA, hM, hTA, hTM, hLF, hDC, hFA, hFM, hQ1, hQ2, hSU, hDS, hEL, hAS, hJ,
    hdbA, hdbM, hf1, hf2, hf3, hf4⟩ := synchronizeCollections_frame s
  have hflag' : (checkAndUpdateLocalCollections s).shouldUpdateLocalCollections
      = false := by
    simp [checkAndUpdateLocalCollections, hflag, hq1, hq2, herr]
  refine ⟨hflag', ?_, ?_, ?_, ?_, ?_⟩
  · simp [checkAndUpdateLocalCollections, hflag, hq1, hq2, herr, hDS]
  · simp [checkAndUpdateLocalCollections, hflag, hq1, hq2, herr, hEL]
  · simp [checkAndUpdateLocalCollections, hflag, hq1, hq2, herr, hQ1]
  · simp [checkAndUpdateLocalCollections, hflag, hq1, hq2, herr, hQ2]
  · exact checkAndUpdateLocalCollections_noop _ hflag'

/-- A concrete state with the rebuild flag set, both queues empty and an
absent remote anime collection, so that the Builder pass errors. -/
def c10State : EngineState :=
  { baseState with shouldUpdateLocalCollections := true, animeCollection := none }

/-- C10 (witness): at `c10State` the Builder errors, yet the flag is cleared
and the signal sent. -/
theorem c10_builder_error_drain_witness :
    (checkAndUpdateLocalCollections c10State).shouldUpdateLocalCollections = false ∧
    (checkAndUpdateLocalCollections c10State).doneSignals = c10State.doneSignals + 1 ∧
    (checkAndUpdateLocalCollections c10State).errorLogs = c10State.errorLogs + 1 ∧
    (checkAndUpdateLocalCollections c10State).animeJobQueue = c10State.animeJobQueue ∧
    (checkAndUpdateLocalCollections c10State).mangaJobQueue = c10State.mangaJobQueue ∧
    checkAndUpdateLocalCollections (checkAndUpdateLocalCollections c10State)
      = checkAndUpdateLocalCollections c10State :=
  c10_builder_error_drain c10State rfl rfl rfl rfl

/-! ## Claim C5: removal on missing dependencies -/

/-- A media object carrying only an id. -/
def bareMedia (i : Nat) : BaseMedia := { id := i, bannerImage := none, coverImage := none }

/-- A minimal list entry for media id `i` with no optional fields set. -/
def bareEntry (i : Nat) : ListEntry :=
  { id := 1, score := none, progress := none, status := none, notes := none,
    repeatCount := none, isPrivate := none, startedAt := none, completedAt := none,
    media := bareMedia i }

/-- A minimal list entry for media id `i` whose status is `current`. -/
def currentEntry (i : Nat) : ListEntry :=
  { bareEntry i with status := some MediaListStatus.current }

/-- A manga snapshot fixture for media id 7. -/
def c5Snap : MangaSnapshot :=
  { mediaId := 7, chapterContainers := [], bannerImagePath := "b",
    coverImagePath := "c", referenceKey := [] }

/-- A state whose remote manga collection is absent while a manga snapshot
for media 7 is persisted and no chapter container exists. -/
def c5State : EngineState :=
  { baseState with
    mangaCollection := none,
    db := { emptyDb with mangaSnapshots := [c5Snap] } }

/-- A Missing-type manga diff for media 7. -/
def c5Diff : MangaDiffResult :=
  { diffType := DiffType.missing, mangaEntry := some (bareEntry 7), mangaSnapshot := none }

/-- C5 (counterexample): a manga job for media 7 with no chapter container in
the dependency inventory, processed in a state whose manga collection is
absent: `synchronizeManga` returns without removing anything — the snapshot
for media 7 is still persisted, contradicting the claim that such a job
always removes the manga. -/
theorem c5_counterexample :
    (c5State.downloadedChapterContainers.filter (fun c => c.mediaId = 7)).isEmpty
      = true ∧
    synchronizeManga c5State c5Diff = c5State ∧
    dbGetManga (synchronizeManga c5State c5Diff).db 7 = some c5Snap := by
  refine ⟨rfl, rfl, ?_⟩
  rfl

/-- C5 (amended): for every anime job whose media id has no local file
referencing it, `synchronizeAnime` removes the anime (snapshot, assets and
tracked record) and persists no snapshot, whatever the diff type; for every
manga job whose media id has no chapter container, `synchronizeManga` does
the same **provided** the remote manga collection is present and holds a
list entry with non-null status for that media id — otherwise it returns
without touching the database. -/
theorem c5_amended_removal :
    (∀ (s : EngineState) (diff : AnimeDiffResult) (entry : ListEntry),
      diff.animeEntry = some entry →
      s.localFiles.any (fun f => f.mediaId = entry.media.id) = false →
      synchronizeAnime s diff = removeAnime s entry.media.id ∧
      (synchronizeAnime s diff).db.animeSnapshots
        = s.db.animeSnapshots.filter (fun sn => sn.mediaId ≠ entry.media.id) ∧
      (synchronizeAnime s diff).assets
        = s.assets.filter (fun i => i ≠ entry.media.id)) ∧
    (∀ (s : EngineState) (diff : MangaDiffResult) (entry lentry : ListEntry)
        (mc : Collection),
      diff.mangaEntry = some entry →
      s.mangaCollection = some mc →
      GetListEntryFromMangaId mc entry.media.id = some lentry →
      lentry.status.isNone = false →
      (s.downloadedChapterContainers.filter
        (fun c => c.mediaId = entry.media.id)).isEmpty = true →
      synchronizeManga s diff = removeManga s entry.media.id ∧
      (synchronizeManga s diff).db.mangaSnapshots
        = s.db.mangaSnapshots.filter (fun sn => sn.mediaId ≠ entry.media.id) ∧
      (synchronizeManga s diff).assets
        = s.assets.filter (fun i => i ≠ entry.media.id)) := by
  constructor
  · intro s diff entry hentry hfiles
    refine ⟨?_, ?_, ?_⟩ <;> simp [synchronizeAnime, hentry, hfiles, removeAnime]
  · intro s diff entry lentry mc hentry hmc hle hstatus hcont
    refine ⟨?_, ?_, ?_⟩ <;>
      simp [synchronizeManga, hentry, hmc, hle, hstatus, hcont, removeManga]

/-- A state with a remote manga collection holding media 7 on a non-null
status list, a persisted manga snapshot for 7 and no chapter containers. -/
def c5WState : EngineState :=
  { baseState with
    mangaCollection := some { lists := [
      { status := some MediaListStatus.current, name := some "Reading",
        isCustomList := some false, entries := [currentEntry 7] }] },
    db := { emptyDb with mangaSnapshots := [c5Snap] } }

/-- C5 (amended, witness): both halves hold at concrete inputs — an anime job
for media 7 with no local files is removed, and a manga job for media 7 with
no containers (and a present collection entry) is removed. -/
theorem c5_amended_removal_witness :
    (synchronizeAnime c5State
        { diffType := DiffType.missing, animeEntry := some (bareEntry 7),
          animeSnapshot := none }
      = removeAnime c5State 7) ∧
    (synchronizeManga c5WState c5Diff = removeManga c5WState 7 ∧
      (synchronizeManga c5WState c5Diff).db.mangaSnapshots
        = c5WState.db.mangaSnapshots.filter (fun sn => sn.mediaId ≠ 7)) :=
  ⟨((c5_amended_removal.1 c5State _ (bareEntry 7) rfl rfl).1 : _),
   (c5_amended_removal.2 c5WState c5Diff (bareEntry 7) (currentEntry 7) _
      rfl rfl rfl rfl rfl).1,
   (c5_amended_removal.2 c5WState c5Diff (bareEntry 7) (currentEntry 7) _
      rfl rfl rfl rfl rfl).2.1⟩

/-! ## Claim C6: failure routing to the FailedEntry caches -/

/-- C6 (counterexample): a manga job whose media id has no list entry in the
present remote manga collection is a failure path of `synchronizeManga` — the
code logs an error ("Failed to get manga") — yet nothing is routed to the
failed-manga cache, contradicting "every failure path routes to the
FailedEntry cache keyed by the entry's media ID". -/
theorem c6_counterexample :
    (synchronizeManga baseState
        { diffType := DiffType.missing, mangaEntry := some (bareEntry 7),
          mangaSnapshot := none }).errorLogs = baseState.errorLogs + 1 ∧
    List.lookup 7 (synchronizeManga baseState
        { diffType := DiffType.missing, mangaEntry := some (bareEntry 7),
          mangaSnapshot := none }).failedManga = none :=
  ⟨rfl, rfl⟩

theorem synchronizeAnime_queues_unchanged (s : EngineState) (diff : AnimeDiffResult) :
    (synchronizeAnime s diff).animeJobQueue = s.animeJobQueue ∧
    (synchronizeAnime s diff).mangaJobQueue = s.mangaJobQueue := by
  constructor <;> (unfold synchronizeAnime; repeat (first | rfl | split | dsimp only))

theorem synchronizeManga_queues_unchanged (s : EngineState) (diff : MangaDiffResult) :
    (synchronizeManga s diff).animeJobQueue = s.animeJobQueue ∧
    (synchronizeManga s diff).mangaJobQueue = s.mangaJobQueue := by
  constructor <;> (unfold synchronizeManga; repeat (first | rfl | split | dsimp only))

/-- C6 (amended): every metadata-fetch, image-download and snapshot-save
failure inside `synchronizeAnime` and `synchronizeManga` routes the remote
entry to the corresponding FailedEntry cache keyed by the entry's media id,
persists no snapshot (the database is unchanged) and never re-enqueues the
job inline (neither function ever touches the job queues, stated first).
Exception forced by the counterexample: the list-entry lookup failure in
`synchronizeManga` only logs an error and routes nothing. -/
theorem c6_amended_failure_routing :
    (∀ (s : EngineState) (diff : AnimeDiffResult),
      (synchronizeAnime s diff).animeJobQueue = s.animeJobQueue ∧
      (synchronizeAnime s diff).mangaJobQueue = s.mangaJobQueue) ∧
    (∀ (s : EngineState) (diff : MangaDiffResult),
      (synchronizeManga s diff).animeJobQueue = s.animeJobQueue ∧
      (synchronizeManga s diff).mangaJobQueue = s.mangaJobQueue) ∧
    -- anime: metadata fetch failure
    (∀ (s : EngineState) (diff : AnimeDiffResult) (entry : ListEntry),
      diff.animeEntry = some entry →
      s.localFiles.any (fun f => f.mediaId = entry.media.id) = true →
      (diff.diffType = DiffType.missing ∨ diff.diffType = DiffType.metadata) →
      s.metadataOracle entry.media.id = none →
      List.lookup entry.media.id (synchronizeAnime s diff).failedAnime = some entry ∧
      (synchronizeAnime s diff).db = s.db) ∧
    -- anime: image download failure on a Missing diff
    (∀ (s : EngineState) (diff : AnimeDiffResult) (entry : ListEntry)
        (md : AnimeMetadata),
      diff.animeEntry = some entry →
      s.localFiles.any (fun f => f.mediaId = entry.media.id) = true →
      diff.diffType = DiffType.missing →
      s.metadataOracle entry.media.id = some md →
      s.downloadAnimeImagesOracle entry.media.id = none →
      List.lookup entry.media.id (synchronizeAnime s diff).failedAnime = some entry ∧
      (synchronizeAnime s diff).db = s.db) ∧
    -- anime: episode image download failure on a MetadataStale diff
    (∀ (s : EngineState) (diff : AnimeDiffResult) (entry : ListEntry)
        (snap : AnimeSnapshot) (md : AnimeMetadata),
      diff.animeEntry = some entry →
      s.localFiles.any (fun f => f.mediaId = entry.media.id) = true →
      diff.diffType = DiffType.metadata →
      diff.animeSnapshot = some snap →
      s.metadataOracle entry.media.id = some md →
      (episodeImageUrlsToDownload md snap).isEmpty = false →
      s.downloadEpisodeImagesOracle entry.media.id
        (episodeImageUrlsToDownload md snap) = none →
      List.lookup entry.media.id (synchronizeAnime s diff).failedAnime = some entry ∧
      (synchronizeAnime s diff).db = s.db) ∧
    -- anime: snapshot save failure on a Missing diff
    (∀ (s : EngineState) (diff : AnimeDiffResult) (entry : ListEntry)
        (md : AnimeMetadata) (res : String × String × List (String × String)),
      diff.animeEntry = some entry →
      s.localFiles.any (fun f => f.mediaId = entry.media.id) = true →
      diff.diffType = DiffType.missing →
      s.metadataOracle entry.media.id = some md →
      s.downloadAnimeImagesOracle entry.media.id = some res →
      s.db.failSaveAnimeSnapshot = true →
      List.lookup entry.media.id (synchronizeAnime s diff).failedAnime = some entry ∧
      (synchronizeAnime s diff).db = s.db) ∧
    -- anime: snapshot save failure on a MetadataStale diff with nothing to download
    (∀ (s : EngineState) (diff : AnimeDiffResult) (entry : ListEntry)
        (snap : AnimeSnapshot) (md : AnimeMetadata),
      diff.animeEntry = some entry →
      s.localFiles.any (fun f => f.mediaId = entry.media.id) = true →
      diff.diffType = DiffType.metadata →
      diff.animeSnapshot = some snap →
      s.metadataOracle entry.media.id = some md →
      (episodeImageUrlsToDownload md snap).isEmpty = true →
      s.db.failSaveAnimeSnapshot = true →
      List.lookup entry.media.id (synchronizeAnime s diff).failedAnime = some entry ∧
      (synchronizeAnime s diff).db = s.db) ∧
    -- anime: snapshot save failure on a MetadataStale diff after downloads
    (∀ (s : EngineState) (diff : AnimeDiffResult) (entry : ListEntry)
        (snap : AnimeSnapshot) (md : AnimeMetadata) (newPaths : List (String × String)),
      diff.animeEntry = some entry →
      s.localFiles.any (fun f => f.mediaId = entry.media.id) = true →
      diff.diffType = DiffType.metadata →
      diff.animeSnapshot = some snap →
      s.metadataOracle entry.media.id = some md →
      (episodeImageUrlsToDownload md snap).isEmpty = false →
      s.downloadEpisodeImagesOracle entry.media.id
        (episodeImageUrlsToDownload md snap) = some newPaths →
      s.db.failSaveAnimeSnapshot = true →
      List.lookup entry.media.id (synchronizeAnime s diff).failedAnime = some entry ∧
      (synchronizeAnime s diff).db = s.db) ∧
    -- manga: image download failure on a Missing diff
    (∀ (s : EngineState) (diff : MangaDiffResult) (entry lentry : ListEntry)
        (mc : Collection),
      diff.mangaEntry = some entry →
      s.mangaCollection = some mc →
      GetListEntryFromMangaId mc entry.media.id = some lentry →
      lentry.status.isNone = false →
      (s.downloadedChapterContainers.filter
        (fun c => c.mediaId = entry.media.id)).isEmpty = false →
      diff.diffType = DiffType.missing →
      s.downloadMangaImagesOracle entry.media.id = none →
      List.lookup entry.media.id (synchronizeManga s diff).failedManga = some entry ∧
      (synchronizeManga s diff).db = s.db) ∧
    -- manga: snapshot save failure on a Missing diff
    (∀ (s : EngineState) (diff : MangaDiffResult) (entry lentry : ListEntry)
        (mc : Collection) (res : String × String),
      diff.mangaEntry = some entry →
      s.mangaCollection = some mc →
      GetListEntryFromMangaId mc entry.media.id = some lentry →
      lentry.status.isNone = false →
      (s.downloadedChapterContainers.filter
        (fun c => c.mediaId = entry.media.id)).isEmpty = false →
      diff.diffType = DiffType.missing →
      s.downloadMangaImagesOracle entry.media.id = some res →
      s.db.failSaveMangaSnapshot = true →
      List.lookup entry.media.id (synchronizeManga s diff).failedManga = some entry ∧
      (synchronizeManga s diff).db = s.db) ∧
    -- manga: snapshot save failure on a MetadataStale diff
    (∀ (s : EngineState) (diff : MangaDiffResult) (entry lentry : ListEntry)
        (mc : Collection) (snap : MangaSnapshot),
      diff.mangaEntry = some entry →
      s.mangaCollection = some mc →
      GetListEntryFromMangaId mc entry.media.id = some lentry →
      lentry.status.isNone = false →
      (s.downloadedChapterContainers.filter
        (fun c => c.mediaId = entry.media.id)).isEmpty = false →
      diff.diffType = DiffType.metadata →
      diff.mangaSnapshot = some snap →
      s.db.failSaveMangaSnapshot = true →
      List.lookup entry.media.id (synchronizeManga s diff).failedManga = some entry ∧
      (synchronizeManga s diff).db = s.db) := by
  refine ⟨synchronizeAnime_queues_unchanged, synchronizeManga_queues_unchanged,
    ?_, ?_, ?_, ?_, ?_, ?_, ?_, ?_, ?_⟩
  · intro s diff entry h1 h2 h3 h4
    rcases h3 with h3 | h3 <;>
      simp [synchronizeAnime, h1, h2, h3, h4, sendAnimeToFailedQueue,
        alInsert_lookup_self]
  · intro s diff entry md h1 h2 h3 h4 h5
    simp [synchronizeAnime, h1, h2, h3, h4, h5, sendAnimeToFailedQueue,
      alInsert_lookup_self]
  · intro s diff entry snap md h1 h2 h3 h4 h5 h6 h7
    have hne : episodeImageUrlsToDownload md snap ≠ [] := by simpa using h6
    have hse : episodeImageUrlsToDownload md
        { mediaId := snap.mediaId, animeMetadata := md,
          bannerImagePath := snap.bannerImagePath,
          coverImagePath := snap.coverImagePath,
          episodeImagePaths := snap.episodeImagePaths,
          referenceKey := GetAnimeReferenceKey entry.media s.localFiles }
        = episodeImageUrlsToDownload md snap := rfl
    simp [synchronizeAnime, h1, h2, h3, h4, h5, hse, hne, h7,
      sendAnimeToFailedQueue, alInsert_lookup_self]
  · intro s diff entry md res h1 h2 h3 h4 h5 h6
    simp [synchronizeAnime, h1, h2, h3, h4, h5, h6, sendAnimeToFailedQueue,
      alInsert_lookup_self]
  · intro s diff entry snap md h1 h2 h3 h4 h5 h6 h7
    have hemp : episodeImageUrlsToDownload md snap = [] := by simpa using h6
    have hse : episodeImageUrlsToDownload md
        { mediaId := snap.mediaId, animeMetadata := md,
          bannerImagePath := snap.bannerImagePath,
          coverImagePath := snap.coverImagePath,
          episodeImagePaths := snap.episodeImagePaths,
          referenceKey := GetAnimeReferenceKey entry.media s.localFiles }
        = episodeImageUrlsToDownload md snap := rfl
    simp [synchronizeAnime, h1, h2, h3, h4, h5, hse, hemp, h7,
      sendAnimeToFailedQueue, alInsert_lookup_self]
  · intro s diff entry snap md newPaths h1 h2 h3 h4 h5 h6 h7 h8
    have hne : episodeImageUrlsToDownload md snap ≠ [] := by simpa using h6
    have hse : episodeImageUrlsToDownload md
        { mediaId := snap.mediaId, animeMetadata := md,
          bannerImagePath := snap.bannerImagePath,
          coverImagePath := snap.coverImagePath,
          episodeImagePaths := snap.episodeImagePaths,
          referenceKey := GetAnimeReferenceKey entry.media s.localFiles }
        = episodeImageUrlsToDownload md snap := rfl
    simp [synchronizeAnime, h1, h2, h3, h4, h5, hse, hne, h7, h8,
      sendAnimeToFailedQueue, alInsert_lookup_self]
  · intro s diff entry lentry mc h1 h2 h3 h4 h5 h6 h7
    simp [synchronizeManga, h1, h2, h3, h4, h5, h6, h7, sendMangaToFailedQueue,
      alInsert_lookup_self]
  · intro s diff entry lentry mc res h1 h2 h3 h4 h5 h6 h7 h8
    simp [synchronizeManga, h1, h2, h3, h4, h5, h6, h7, h8, sendMangaToFailedQueue,
      alInsert_lookup_self]
  · intro s diff entry lentry mc snap h1 h2 h3 h4 h5 h6 h7 h8
    simp [synchronizeManga, h1, h2, h3, h4, h5, h6, h7, h8, sendMangaToFailedQueue,
      alInsert_lookup_self]

/-! ## Fixtures for the C6 witness -/

/-- A local file referencing media 7. -/
def file7 : LocalFile := { path := "f.mkv", mediaId := 7, episodeNumber := 1 }

/-- Metadata with one episode image. -/
def md0 : AnimeMetadata := { episodes := [("1", { image := "u1" })] }

/-- Metadata with no episodes. -/
def mdEmpty : AnimeMetadata := { episodes := [] }

/-- An anime snapshot for media 7 with no episode image paths. -/
def snap7 : AnimeSnapshot :=
  { mediaId := 7, animeMetadata := mdEmpty, bannerImagePath := "b",
    coverImagePath := "c", episodeImagePaths := [], referenceKey := [] }

/-- A Missing-type anime diff for media 7. -/
def diffMissing7 : AnimeDiffResult :=
  { diffType := DiffType.missing, animeEntry := some (bareEntry 7),
    animeSnapshot := none }

/-- A MetadataStale-type anime diff for media 7 carrying `snap7`. -/
def diffStale7 : AnimeDiffResult :=
  { diffType := DiffType.metadata, animeEntry := some (bareEntry 7),
    animeSnapshot := some snap7 }

/-- A state tracking a local file for media 7 whose metadata provider fails. -/
def sA1 : EngineState := { baseState with localFiles := [file7] }

/-- Like `sA1` but with metadata available and image downloads failing. -/
def sA2 : EngineState := { sA1 with metadataOracle := fun _ => some md0 }

/-- Like `sA2` but with image downloads succeeding and snapshot saves failing. -/
def sA4 : EngineState :=
  { sA2 with
    downloadAnimeImagesOracle := fun _ => some ("b", "c", []),
    db := { emptyDb with failSaveAnimeSnapshot := true } }

/-- A state with empty fresh metadata (nothing to download) and failing saves. -/
def sA5 : EngineState :=
  { sA1 with
    metadataOracle := fun _ => some mdEmpty,
    db := { emptyDb with failSaveAnimeSnapshot := true } }

/-- Like `sA2` but with episode downloads succeeding and snapshot saves failing. -/
def sA6 : EngineState :=
  { sA2 with
    downloadEpisodeImagesOracle := fun _ _ => some [("1", "p1")],
    db := { emptyDb with failSaveAnimeSnapshot := true } }

/-- A remote manga collection holding media 7 on a `current` list. -/
def mangaColl7 : Collection :=
  { lists := [{ status := some MediaListStatus.current, name := some "Reading",
                isCustomList := some false, entries := [currentEntry 7] }] }

/-- A chapter container for media 7. -/
def cont7 : ChapterContainer := { mediaId := 7, provider := "p", chapterIds := ["c1"] }

/-- A manga state for media 7 with containers present and downloads failing. -/
def sM1 : EngineState :=
  { baseState with
    mangaCollection := some mangaColl7,
    downloadedChapterContainers := [cont7] }

/-- Like `sM1` but with downloads succeeding and snapshot saves failing. -/
def sM2 : EngineState :=
  { sM1 with
    downloadMangaImagesOracle := fun _ => some ("b", "c"),
    db := { emptyDb with failSaveMangaSnapshot := true } }

/-- Like `sM1` but with snapshot saves failing. -/
def sM3 : EngineState :=
  { sM1 with db := { emptyDb with failSaveMangaSnapshot := true } }

/-- A MetadataStale-type manga diff for media 7 carrying `c5Snap`. -/
def diffMStale7 : MangaDiffResult :=
  { diffType := DiffType.metadata, mangaEntry := some (bareEntry 7),
    mangaSnapshot := some c5Snap }

/-- C6 (amended, witness): every conjunct of the amended statement holds at a
concrete input. -/
theorem c6_amended_failure_routing_witness :
    ((synchronizeAnime baseState diffMissing7).animeJobQueue = baseState.animeJobQueue ∧
     (synchronizeAnime baseState diffMissing7).mangaJobQueue = baseState.mangaJobQueue) ∧
    ((synchronizeManga baseState c5Diff).animeJobQueue = baseState.animeJobQueue ∧
     (synchronizeManga baseState c5Diff).mangaJobQueue = baseState.mangaJobQueue) ∧
    (List.lookup 7 (synchronizeAnime sA1 diffMissing7).failedAnime
        = some (bareEntry 7) ∧
      (synchronizeAnime sA1 diffMissing7).db = sA1.db) ∧
    (List.lookup 7 (synchronizeAnime sA2 diffMissing7).failedAnime
        = some (bareEntry 7) ∧
      (synchronizeAnime sA2 diffMissing7).db = sA2.db) ∧
    (List.lookup 7 (synchronizeAnime sA2 diffStale7).failedAnime
        = some (bareEntry 7) ∧
      (synchronizeAnime sA2 diffStale7).db = sA2.db) ∧
    (List.lookup 7 (synchronizeAnime sA4 diffMissing7).failedAnime
        = some (bareEntry 7) ∧
      (synchronizeAnime sA4 diffMissing7).db = sA4.db) ∧
    (List.lookup 7 (synchronizeAnime sA5 diffStale7).failedAnime
        = some (bareEntry 7) ∧
      (synchronizeAnime sA5 diffStale7).db = sA5.db) ∧
    (List.lookup 7 (synchronizeAnime sA6 diffStale7).failedAnime
        = some (bareEntry 7) ∧
      (synchronizeAnime sA6 diffStale7).db = sA6.db) ∧
    (List.lookup 7 (synchronizeManga sM1 c5Diff).failedManga = some (bareEntry 7) ∧
      (synchronizeManga sM1 c5Diff).db = sM1.db) ∧
    (List.lookup 7 (synchronizeManga sM2 c5Diff).failedManga = some (bareEntry 7) ∧
      (synchronizeManga sM2 c5Diff).db = sM2.db) ∧
    (List.lookup 7 (synchronizeManga sM3 diffMStale7).failedManga
        = some (bareEntry 7) ∧
      (synchronizeManga sM3 diffMStale7).db = sM3.db) := by
  obtain ⟨Hq1, Hq2, HA1, HA2, HA3, HA4, HA5, HA6, HM1, HM2, HM3⟩ :=
    c6_amended_failure_routing
  exact ⟨Hq1 baseState diffMissing7, Hq2 baseState c5Diff,
    HA1 sA1 diffMissing7 (bareEntry 7) rfl (by decide) (Or.inl rfl) rfl,
    HA2 sA2 diffMissing7 (bareEntry 7) md0 rfl (by decide) rfl rfl rfl,
    HA3 sA2 diffStale7 (bareEntry 7) snap7 md0 rfl (by decide) rfl rfl rfl
      (by decide) rfl,
    HA4 sA4 diffMissing7 (bareEntry 7) md0 ("b", "c", []) rfl (by decide) rfl rfl
      rfl rfl,
    HA5 sA5 diffStale7 (bareEntry 7) snap7 mdEmpty rfl (by decide) rfl rfl rfl
      (by decide) rfl,
    HA6 sA6 diffStale7 (bareEntry 7) snap7 md0 [("1", "p1")] rfl (by decide) rfl
      rfl rfl (by decide) rfl rfl,
    HM1 sM1 c5Diff (bareEntry 7) (currentEntry 7) mangaColl7 rfl rfl (by decide)
      rfl (by decide) rfl rfl,
    HM2 sM2 c5Diff (bareEntry 7) (currentEntry 7) mangaColl7 ("b", "c") rfl rfl
      (by decide) rfl (by decide) rfl rfl rfl,
    HM3 sM3 diffMStale7 (bareEntry 7) (currentEntry 7) mangaColl7 c5Snap rfl rfl
      (by decide) rfl (by decide) rfl rfl rfl⟩

/-! ## Claim C7: stale-metadata episode image downloads -/

theorem mem_keys_of_mem_keys_toDownload {snapPaths : List (String × String)}
    {l : List (String × EpisodeMetadata)} {k : String}
    (h : k ∈ ((l.filterMap (fun p => if p.2.image = "" then none
          else some (p.1, p.2.image))).filter
        (fun p => (List.lookup p.1 snapPaths).isNone)).map Prod.fst) :
    k ∈ l.map Prod.fst := by
  induction l with
  | nil => simp at h
  | cons p t ih =>
    simp only [List.filterMap_cons] at h
    by_cases hi : p.2.image = ""
    · rw [if_pos hi] at h
      exact List.mem_cons_of_mem _ (ih h)
    · rw [if_neg hi] at h
      by_cases hn : (List.lookup p.1 snapPaths).isNone
      · rw [List.filter_cons_of_pos (by simpa using hn)] at h
        simp only [List.map_cons, List.mem_cons] at h
        rcases h with h | h
        · simp [h]
        · exact List.mem_cons_of_mem _ (ih h)
      · rw [List.filter_cons_of_neg (by simpa using hn)] at h
        exact List.mem_cons_of_mem _ (ih h)

theorem lookup_toDownload_aux (snapPaths : List (String × String))
    (l : List (String × EpisodeMetadata)) (hnd : (l.map Prod.fst).Nodup) (k : String) :
    List.lookup k ((l.filterMap (fun p => if p.2.image = "" then none
          else some (p.1, p.2.image))).filter
        (fun p => (List.lookup p.1 snapPaths).isNone))
      = match List.lookup k l with
        | none => none
        | some ep =>
          if ep.image = "" then none
          else if (List.lookup k snapPaths).isNone then some ep.image
          else none := by
  induction l with
  | nil => simp [List.lookup]
  | cons p t ih =>
    simp only [List.map_cons, List.nodup_cons] at hnd
    simp only [List.filterMap_cons]
    by_cases hi : p.2.image = ""
    · rw [if_pos hi, ih hnd.2]
      by_cases hk : k = p.1
      · subst hk
        have ht : List.lookup p.1 t = none := lookup_none_of_not_mem_keys t p.1 hnd.1
        simp [List.lookup, ht, hi]
      · simp [List.lookup, show (k == p.1) = false by simp [hk]]
    · rw [if_neg hi]
      by_cases hn : (List.lookup p.1 snapPaths).isNone
      · rw [List.filter_cons_of_pos (by simpa using hn)]
        by_cases hk : k = p.1
        · subst hk
          simp [List.lookup, hi, hn]
        · simp [List.lookup, show (k == p.1) = false by simp [hk], ih hnd.2]
      · rw [List.filter_cons_of_neg (by simpa using hn)]
        rw [ih hnd.2]
        by_cases hk : k = p.1
        · subst hk
          have ht : List.lookup p.1 t = none := lookup_none_of_not_mem_keys t p.1 hnd.1
          simp [List.lookup, ht, hi, hn]
        · simp [List.lookup, show (k == p.1) = false by simp [hk]]

/-- The characterization of the download set computed at `sync.go` lines
533-548: an episode key maps to a URL exactly when the fresh metadata has
that episode with that non-empty image URL and the snapshot does not already
hold a path for the key. -/
theorem lookup_episodeImageUrlsToDownload (md : AnimeMetadata) (snap : AnimeSnapshot)
    (hnd : (md.episodes.map Prod.fst).Nodup) (k : String) (url : String) :
    List.lookup k (episodeImageUrlsToDownload md snap) = some url ↔
      (∃ ep, List.lookup k md.episodes = some ep ∧ ep.image = url ∧ url ≠ "" ∧
        List.lookup k snap.episodeImagePaths = none) := by
  unfold episodeImageUrlsToDownload currentEpisodeImageUrls
  rw [lookup_toDownload_aux snap.episodeImagePaths md.episodes hnd k]
  cases hl : List.lookup k md.episodes with
  | none => simp
  | some ep =>
    dsimp only
    constructor
    · intro h
      by_cases hi : ep.image = ""
      · rw [if_pos hi] at h
        exact absurd h (by simp)
      · rw [if_neg hi] at h
        by_cases hn : (List.lookup k snap.episodeImagePaths).isNone
        · rw [if_pos hn] at h
          injection h with h
          exact ⟨ep, rfl, h, by rw [← h]; exact hi, Option.isNone_iff_eq_none.mp hn⟩
        · rw [if_neg hn] at h
          exact absurd h (by simp)
    · rintro ⟨ep', hep', himg, hurl, hsnap⟩
      injection hep' with hep'
      subst hep'
      rw [if_neg (by rw [himg]; exact hurl), if_pos (by simp [hsnap]), himg]

theorem mem_of_lookup_eq_some {α β : Type} [DecidableEq α] {l : List (α × β)}
    {k : α} {v : β} (h : List.lookup k l = some v) : (k, v) ∈ l := by
  induction l with
  | nil => simp [List.lookup] at h
  | cons p t ih =>
    obtain ⟨a, b⟩ := p
    by_cases hk : k = a
    · subst hk
      simp [List.lookup] at h
      subst h
      exact List.mem_cons_self _ _
    · simp only [List.lookup, show (k == a) = false by simp [hk]] at h
      exact List.mem_cons_of_mem _ (ih h)

theorem find?_saveAnimeSnapList (l : List AnimeSnapshot) (sn : AnimeSnapshot) :
    (saveAnimeSnapList l sn).find? (fun x => x.mediaId = sn.mediaId) = some sn := by
  induction l with
  | nil => simp [saveAnimeSnapList, List.find?]
  | cons a t ih =>
    by_cases h : a.mediaId = sn.mediaId
    · simp [saveAnimeSnapList, h, List.find?]
    · simp only [saveAnimeSnapList, if_neg h]
      rw [List.find?]
      simp only [show (decide (a.mediaId = sn.mediaId)) = false by simp [h]]
      exact ih

/-- C7 (claim): for every anime diff of type MetadataStale carrying a prior
snapshot, `synchronizeAnime` downloads exactly the episode images whose key
appears in the freshly fetched metadata with a non-empty image URL but is
absent from the snapshot's `episodeImagePaths`; episode image paths already
in the snapshot are left in place; and the persisted snapshot carries the
fresh metadata, a recomputed reference key, and the union of the old and
newly downloaded episode image paths.  The Nodup hypotheses state that the
Go maps behind the association lists have unique keys, and `h10` that the
downloader returns paths only for the keys it was asked for. -/
theorem c7_stale_metadata_downloads (s : EngineState) (diff : AnimeDiffResult)
    (entry : ListEntry) (snap : AnimeSnapshot) (md : AnimeMetadata)
    (newPaths : List (String × String))
    (h1 : diff.animeEntry = some entry)
    (h2 : s.localFiles.any (fun f => f.mediaId = entry.media.id) = true)
    (h3 : diff.diffType = DiffType.metadata)
    (h4 : diff.animeSnapshot = some snap)
    (h5 : s.metadataOracle entry.media.id = some md)
    (h6 : s.downloadEpisodeImagesOracle entry.media.id
      (episodeImageUrlsToDownload md snap) = some newPaths)
    (h7 : s.db.failSaveAnimeSnapshot = false)
    (h8 : (md.episodes.map Prod.fst).Nodup)
    (h9 : (newPaths.map Prod.fst).Nodup)
    (h10 : ∀ p ∈ newPaths, List.lookup p.1 snap.episodeImagePaths = none)
    (h11 : snap.mediaId = entry.media.id) :
    (∀ k url, List.lookup k (episodeImageUrlsToDownload md snap) = some url ↔
      (∃ ep, List.lookup k md.episodes = some ep ∧ ep.image = url ∧ url ≠ "" ∧
        List.lookup k snap.episodeImagePaths = none)) ∧
    ((synchronizeAnime s diff).episodeDownloadJournal
      = if episodeImageUrlsToDownload md snap = [] then s.episodeDownloadJournal
        else s.episodeDownloadJournal
          ++ [(entry.media.id, episodeImageUrlsToDownload md snap)]) ∧
    (∃ sv, dbGetAnime (synchronizeAnime s diff).db entry.media.id = some sv ∧
      sv.animeMetadata = md ∧
      sv.referenceKey = GetAnimeReferenceKey entry.media s.localFiles ∧
      (∀ k p, List.lookup k snap.episodeImagePaths = some p →
        List.lookup k sv.episodeImagePaths = some p) ∧
      (∀ k, List.lookup k sv.episodeImagePaths
        = (List.lookup k
            (if episodeImageUrlsToDownload md snap = [] then [] else newPaths)).or
          (List.lookup k snap.episodeImagePaths))) := by
  have hse : episodeImageUrlsToDownload md
      { mediaId := snap.mediaId, animeMetadata := md,
        bannerImagePath := snap.bannerImagePath,
        coverImagePath := snap.coverImagePath,
        episodeImagePaths := snap.episodeImagePaths,
        referenceKey := GetAnimeReferenceKey entry.media s.localFiles }
      = episodeImageUrlsToDownload md snap := rfl
  refine ⟨fun k url => lookup_episodeImageUrlsToDownload md snap h8 k url, ?_, ?_⟩
  · by_cases hemp : episodeImageUrlsToDownload md snap = [] <;>
      simp [synchronizeAnime, h1, h2, h3, h4, h5, h6, h7, hse, hemp]
  · by_cases hemp : episodeImageUrlsToDownload md snap = []
    · refine ⟨{ snap with
          animeMetadata := md,
          referenceKey := GetAnimeReferenceKey entry.media s.localFiles },
        ?_, rfl, rfl, ?_, ?_⟩
      · simp only [synchronizeAnime, h1, h2, h3, h4, h5, h6, h7, hse, hemp]
        simp only [dbGetAnime, if_true, List.isEmpty_nil]
        rw [← h11]
        exact find?_saveAnimeSnapList s.db.animeSnapshots
          ⟨snap.mediaId, md, snap.bannerImagePath, snap.coverImagePath,
            snap.episodeImagePaths, GetAnimeReferenceKey entry.media s.localFiles⟩
      · intro k p h
        exact h
      · intro k
        simp [hemp, List.lookup, Option.or]
    · refine ⟨{ snap with
          animeMetadata := md,
          referenceKey := GetAnimeReferenceKey entry.media s.localFiles,
          episodeImagePaths := newPaths.foldl (fun m p => alInsert m p.1 p.2)
            snap.episodeImagePaths },
        ?_, rfl, rfl, ?_, ?_⟩
      · have hfind := find?_saveAnimeSnapList s.db.animeSnapshots
          ⟨snap.mediaId, md, snap.bannerImagePath, snap.coverImagePath,
            newPaths.foldl (fun m p => alInsert m p.1 p.2) snap.episodeImagePaths,
            GetAnimeReferenceKey entry.media s.localFiles⟩
        simp [synchronizeAnime, h1, h2, h3, h4, h5, h6, h7, hse, hemp, dbGetAnime]
        rw [← h11]
        simpa using hfind
      · intro k p hkp
        have hmerge := lookup_foldl_alInsert newPaths h9 snap.episodeImagePaths k
        cases hnew : List.lookup k newPaths with
        | some v =>
          have := h10 (k, v) (mem_of_lookup_eq_some hnew)
          simp only at this
          rw [this] at hkp
          exact absurd hkp (by simp)
        | none =>
          rw [hnew] at hmerge
          simpa [hkp] using hmerge
      · intro k
        have hmerge := lookup_foldl_alInsert newPaths h9 snap.episodeImagePaths k
        rw [if_neg hemp]
        cases hnew : List.lookup k newPaths with
        | some v =>
          simp [hnew, Option.or] at hmerge ⊢
          exact hmerge
        | none =>
          simp [hnew, Option.or] at hmerge ⊢
          exact hmerge

/-- A state for the C7 witness: metadata available, episode downloads
succeeding, snapshot saves succeeding. -/
def sC7 : EngineState :=
  { sA2 with downloadEpisodeImagesOracle := fun _ _ => some [("1", "p1")] }

/-- C7 (witness): the conclusion holds at a concrete MetadataStale job for
media 7 with one missing episode image. -/
theorem c7_stale_metadata_downloads_witness :
    (∀ k url, List.lookup k (episodeImageUrlsToDownload md0 snap7) = some url ↔
      (∃ ep, List.lookup k md0.episodes = some ep ∧ ep.image = url ∧ url ≠ "" ∧
        List.lookup k snap7.episodeImagePaths = none)) ∧
    ((synchronizeAnime sC7 diffStale7).episodeDownloadJournal
      = if episodeImageUrlsToDownload md0 snap7 = [] then sC7.episodeDownloadJournal
        else sC7.episodeDownloadJournal
          ++ [(7, episodeImageUrlsToDownload md0 snap7)]) ∧
    (∃ sv, dbGetAnime (synchronizeAnime sC7 diffStale7).db 7 = some sv ∧
      sv.animeMetadata = md0 ∧
      sv.referenceKey = GetAnimeReferenceKey (bareEntry 7).media sC7.localFiles ∧
      (∀ k p, List.lookup k snap7.episodeImagePaths = some p →
        List.lookup k sv.episodeImagePaths = some p) ∧
      (∀ k, List.lookup k sv.episodeImagePaths
        = (List.lookup k
            (if episodeImageUrlsToDownload md0 snap7 = [] then []
             else [("1", "p1")])).or
          (List.lookup k snap7.episodeImagePaths))) :=
  c7_stale_metadata_downloads sC7 diffStale7 (bareEntry 7) snap7 md0 [("1", "p1")]
    rfl (by decide) rfl rfl rfl rfl rfl (by decide) (by decide) (by decide) rfl

/-! ## Claim C2: Builder passes per drain-to-empty -/

/-- The number of workers that are past their channel receive (have a job in
flight). -/
def workPend (s : WorkerState) : Nat :=
  (if s.aPc = WorkerPc.idle then 0 else 1) + (if s.mPc = WorkerPc.idle then 0 else 1)

/-- The inductive invariant of the two-worker system: passes and signals move
together; no pass happens while a queue is non-empty; once both queues are
empty, passes plus in-flight workers never exceed two; while no pass has
happened something is still pending (a job queued or a worker in flight);
and while no pass has happened, a worker past its flag write still sees the
flag set. -/
def WorkerInv (s : WorkerState) : Prop :=
  s.passes = s.signals ∧
  (0 < s.animeQ + s.mangaQ → s.passes = 0) ∧
  (s.animeQ = 0 → s.mangaQ = 0 → s.passes + workPend s ≤ 2) ∧
  (s.passes = 0 →
    s.aPc ≠ WorkerPc.idle ∨ s.mPc ≠ WorkerPc.idle ∨ 0 < s.animeQ + s.mangaQ) ∧
  (s.passes = 0 → (s.aPc = WorkerPc.working → s.flag = true) ∧
    (s.mPc = WorkerPc.working → s.flag = true))

theorem workerInv_init (a m : Nat) (h : 0 < a + m) : WorkerInv (workerInit a m) := by
  refine ⟨rfl, fun _ => rfl, ?_, ?_, ?_⟩
  · intro h1 h2
    simp [workerInit] at h1 h2
    omega
  · intro _
    right; right
    simpa [workerInit] using h
  · intro _
    exact ⟨fun hw => by simp [workerInit] at hw, fun hw => by simp [workerInit] at hw⟩

theorem workerInv_step {s t : WorkerState} (hstep : WorkerStep s t)
    (hInv : WorkerInv s) : WorkerInv t := by
  obtain ⟨i1, i2, i3, i4, i6⟩ := hInv
  cases hstep with
  | recvAnime hpc hq =>
    refine ⟨i1, fun _ => i2 (by omega), ?_, ?_, ?_⟩
    · intro h1 h2
      have hp : s.passes = 0 := i2 (by omega)
      simp only [workPend, hp]
      by_cases hm : s.mPc = WorkerPc.idle <;> simp [hm]
    · intro _
      exact Or.inl (by simp)
    · intro h0
      exact ⟨fun hw => by simp at hw, fun hw => (i6 h0).2 hw⟩
  | setFlagAnime hpc =>
    refine ⟨i1, fun h => i2 h, ?_, ?_, ?_⟩
    · intro h1 h2
      have h3 := i3 h1 h2
      rw [workPend, hpc] at h3
      simp only [workPend]
      simpa using h3
    · intro _
      exact Or.inl (by simp)
    · intro _
      exact ⟨fun _ => rfl, fun _ => rfl⟩
  | checkAnime hpc =>
    by_cases hcond : s.flag = true ∧ s.animeQ = 0 ∧ s.mangaQ = 0
    · obtain ⟨hf, hq1, hq2⟩ := hcond
      have hrd : runDrainCheck s
          = { s with
              flag := false,
              passes := s.passes + 1,
              signals := s.signals + 1 } := by
        simp [runDrainCheck, hf, hq1, hq2]
      rw [hrd]
      refine ⟨by simp [i1], fun hpos => absurd hpos (by simp [hq1, hq2]), ?_, ?_, ?_⟩
      · intro _ _
        have h3 := i3 hq1 hq2
        rw [workPend, hpc] at h3
        simp only [workPend]
        by_cases hm : s.mPc = WorkerPc.idle <;> simp [hm] at h3 ⊢ <;> omega
      · intro h0
        exact absurd h0 (by simp)
      · intro h0
        exact absurd h0 (by simp)
    · have hrd : runDrainCheck s = s := by
        simp only [runDrainCheck, if_neg hcond]
      rw [hrd]
      refine ⟨i1, fun h => i2 h, ?_, ?_, ?_⟩
      · intro h1 h2
        have h3 := i3 h1 h2
        rw [workPend, hpc] at h3
        simp only [workPend]
        by_cases hm : s.mPc = WorkerPc.idle <;> simp [hm] at h3 ⊢ <;> omega
      · intro h0
        have hf : s.flag = true := (i6 h0).1 hpc
        refine Or.inr (Or.inr ?_)
        rcases Nat.eq_zero_or_pos (s.animeQ + s.mangaQ) with hz | hpos
        · exact absurd ⟨hf, by omega, by omega⟩ hcond
        · exact hpos
      · intro h0
        exact ⟨fun hw => by simp at hw, fun hw => (i6 h0).2 hw⟩
  | recvManga hpc hq =>
    refine ⟨i1, fun _ => i2 (by omega), ?_, ?_, ?_⟩
    · intro h1 h2
      have hp : s.passes = 0 := i2 (by omega)
      simp only [workPend, hp]
      by_cases ha : s.aPc = WorkerPc.idle <;> simp [ha]
    · intro _
      exact Or.inr (Or.inl (by simp))
    · intro h0
      exact ⟨fun hw => (i6 h0).1 hw, fun hw => by simp at hw⟩
  | setFlagManga hpc =>
    refine ⟨i1, fun h => i2 h, ?_, ?_, ?_⟩
    · intro h1 h2
      have h3 := i3 h1 h2
      rw [workPend, hpc] at h3
      simp only [workPend]
      simpa using h3
    · intro _
      exact Or.inr (Or.inl (by simp))
    · intro _
      exact ⟨fun _ => rfl, fun _ => rfl⟩
  | checkManga hpc =>
    by_cases hcond : s.flag = true ∧ s.animeQ = 0 ∧ s.mangaQ = 0
    · obtain ⟨hf, hq1, hq2⟩ := hcond
      have hrd : runDrainCheck s
          = { s with
              flag := false,
              passes := s.passes + 1,
              signals := s.signals + 1 } := by
        simp [runDrainCheck, hf, hq1, hq2]
      rw [hrd]
      refine ⟨by simp [i1], fun hpos => absurd hpos (by simp [hq1, hq2]), ?_, ?_, ?_⟩
      · intro _ _
        have h3 := i3 hq1 hq2
        rw [workPend, hpc] at h3
        simp only [workPend]
        by_cases ha : s.aPc = WorkerPc.idle <;> simp [ha] at h3 ⊢ <;> omega
      · intro h0
        exact absurd h0 (by simp)
      · intro h0
        exact absurd h0 (by simp)
    · have hrd : runDrainCheck s = s := by
        simp only [runDrainCheck, if_neg hcond]
      rw [hrd]
      refine ⟨i1, fun h => i2 h, ?_, ?_, ?_⟩
      · intro h1 h2
        have h3 := i3 h1 h2
        rw [workPend, hpc] at h3
        simp only [workPend]
        by_cases ha : s.aPc = WorkerPc.idle <;> simp [ha] at h3 ⊢ <;> omega
      · intro h0
        have hf : s.flag = true := (i6 h0).2 hpc
        refine Or.inr (Or.inr ?_)
        rcases Nat.eq_zero_or_pos (s.animeQ + s.mangaQ) with hz | hpos
        · exact absurd ⟨hf, by omega, by omega⟩ hcond
        · exact hpos
      · intro h0
        exact ⟨fun hw => (i6 h0).1 hw, fun hw => by simp at hw⟩

theorem workerInv_reachable {s0 s : WorkerState} (h : WorkerReachable s0 s)
    (hInv : WorkerInv s0) : WorkerInv s := by
  induction h with
  | refl => exact hInv
  | tail _ hstep ih => exact workerInv_step hstep ih

/-- A state is terminal exactly when both workers are blocked on their
channels and both queues are empty. -/
theorem workerTerminal_iff (s : WorkerState) :
    WorkerTerminal s ↔
      s.aPc = WorkerPc.idle ∧ s.mPc = WorkerPc.idle ∧
      s.animeQ = 0 ∧ s.mangaQ = 0 := by
  constructor
  · intro h
    have hpa : s.aPc = WorkerPc.idle := by
      cases hpc : s.aPc with
      | idle => rfl
      | gotJob => exact absurd (WorkerStep.setFlagAnime s hpc) (h _)
      | working => exact absurd (WorkerStep.checkAnime s hpc) (h _)
    have hpm : s.mPc = WorkerPc.idle := by
      cases hpc : s.mPc with
      | idle => rfl
      | gotJob => exact absurd (WorkerStep.setFlagManga s hpc) (h _)
      | working => exact absurd (WorkerStep.checkManga s hpc) (h _)
    have hqa : s.animeQ = 0 := by
      by_contra hq
      exact h _ (WorkerStep.recvAnime s hpa hq)
    have hqm : s.mangaQ = 0 := by
      by_contra hq
      exact h _ (WorkerStep.recvManga s hpm hq)
    exact ⟨hpa, hpm, hqa, hqm⟩
  · rintro ⟨h1, h2, h3, h4⟩ t hstep
    cases hstep with
    | recvAnime hpc hq => exact hq h3
    | setFlagAnime hpc => simp [h1] at hpc
    | checkAnime hpc => simp [h1] at hpc
    | recvManga hpc hq => exact hq h4
    | setFlagManga hpc => simp [h2] at hpc
    | checkManga hpc => simp [h2] at hpc

/-- The terminal state of the two-pass interleaving. -/
def c2BadState : WorkerState :=
  { animeQ := 0, mangaQ := 0, flag := false, aPc := WorkerPc.idle,
    mPc := WorkerPc.idle, passes := 2, signals := 2 }

/-- C2 (counterexample): one anime and one manga job, one drain-to-empty,
two Builder passes.  The anime worker receives its job (both queues are now
drained) but is preempted before its unsynchronized flag write; the manga
worker receives, sets the flag, and its drain check runs Builder pass one
and clears the flag; the anime worker then sets the flag again, and its
drain check runs Builder pass two.  The terminal state has two passes and
two signals, refuting "every drain-to-empty of the two queues triggers
exactly one Builder pass". -/
theorem c2_counterexample :
    WorkerReachable (workerInit 1 1) c2BadState ∧ WorkerTerminal c2BadState ∧
    c2BadState.passes = 2 ∧ c2BadState.signals = 2 := by
  have t1 : WorkerStep (workerInit 1 1)
      ⟨0, 1, false, WorkerPc.gotJob, WorkerPc.idle, 0, 0⟩ :=
    WorkerStep.recvAnime (workerInit 1 1) rfl (by decide)
  have t2 : WorkerStep ⟨0, 1, false, WorkerPc.gotJob, WorkerPc.idle, 0, 0⟩
      ⟨0, 0, false, WorkerPc.gotJob, WorkerPc.gotJob, 0, 0⟩ :=
    WorkerStep.recvManga _ rfl (by decide)
  have t3 : WorkerStep ⟨0, 0, false, WorkerPc.gotJob, WorkerPc.gotJob, 0, 0⟩
      ⟨0, 0, true, WorkerPc.gotJob, WorkerPc.working, 0, 0⟩ :=
    WorkerStep.setFlagManga _ rfl
  have t4 : WorkerStep ⟨0, 0, true, WorkerPc.gotJob, WorkerPc.working, 0, 0⟩
      ⟨0, 0, false, WorkerPc.gotJob, WorkerPc.idle, 1, 1⟩ :=
    WorkerStep.checkManga _ rfl
  have t5 : WorkerStep ⟨0, 0, false, WorkerPc.gotJob, WorkerPc.idle, 1, 1⟩
      ⟨0, 0, true, WorkerPc.working, WorkerPc.idle, 1, 1⟩ :=
    WorkerStep.setFlagAnime _ rfl
  have t6 : WorkerStep ⟨0, 0, true, WorkerPc.working, WorkerPc.idle, 1, 1⟩
      c2BadState :=
    WorkerStep.checkAnime _ rfl
  refine ⟨?_, (workerTerminal_iff c2BadState).2 ⟨rfl, rfl, rfl, rfl⟩, rfl, rfl⟩
  exact Relation.ReflTransGen.head t1 (Relation.ReflTransGen.head t2
    (Relation.ReflTransGen.head t3 (Relation.ReflTransGen.head t4
      (Relation.ReflTransGen.head t5 (Relation.ReflTransGen.head t6
        Relation.ReflTransGen.refl)))))

/-- C2 (amended): with the jobs of one cycle enqueued up front, each worker
— as separate unsynchronized actions — receives a job, sets the
rebuild-pending flag, handles the job, and then checks under the mutex
whether both queues are empty and the flag is set, running one Builder pass,
clearing the flag and sending one signal exactly when both hold.  Every
drain-to-empty of the two queues triggers at least one and at most two
Builder passes, with exactly one signal per pass; a second pass occurs when
a worker performs its flag write after the other worker's pass has already
cleared the flag. -/
theorem c2_amended_drain_passes (a m : Nat) (h : 0 < a + m) (s : WorkerState)
    (hr : WorkerReachable (workerInit a m) s) (ht : WorkerTerminal s) :
    1 ≤ s.passes ∧ s.passes ≤ 2 ∧ s.signals = s.passes := by
  obtain ⟨i1, i2, i3, i4, i6⟩ := workerInv_reachable hr (workerInv_init a m h)
  obtain ⟨hpa, hpm, hqa, hqm⟩ := (workerTerminal_iff s).1 ht
  refine ⟨?_, ?_, i1.symm⟩
  · rcases Nat.eq_zero_or_pos s.passes with hp | hp
    · rcases i4 hp with h1 | h1 | h1
      · exact absurd hpa h1
      · exact absurd hpm h1
      · omega
    · exact hp
  · have h3 := i3 hqa hqm
    rw [workPend, hpa, hpm] at h3
    simpa using h3

/-- The terminal state of a single-job run. -/
def c2OkState : WorkerState :=
  { animeQ := 0, mangaQ := 0, flag := false, aPc := WorkerPc.idle,
    mPc := WorkerPc.idle, passes := 1, signals := 1 }

/-- C2 (amended, witness): on a concrete trace with one anime job, the
terminal state has one pass (within the one-to-two bound) and one signal. -/
theorem c2_amended_drain_passes_witness :
    0 < 1 + 0 ∧ 1 ≤ c2OkState.passes ∧ c2OkState.passes ≤ 2 ∧
    c2OkState.signals = c2OkState.passes := by
  have t1 : WorkerStep (workerInit 1 0)
      ⟨0, 0, false, WorkerPc.gotJob, WorkerPc.idle, 0, 0⟩ :=
    WorkerStep.recvAnime (workerInit 1 0) rfl (by decide)
  have t2 : WorkerStep ⟨0, 0, false, WorkerPc.gotJob, WorkerPc.idle, 0, 0⟩
      ⟨0, 0, true, WorkerPc.working, WorkerPc.idle, 0, 0⟩ :=
    WorkerStep.setFlagAnime _ rfl
  have t3 : WorkerStep ⟨0, 0, true, WorkerPc.working, WorkerPc.idle, 0, 0⟩
      c2OkState :=
    WorkerStep.checkAnime _ rfl
  have hreach : WorkerReachable (workerInit 1 0) c2OkState :=
    Relation.ReflTransGen.head t1 (Relation.ReflTransGen.head t2
      (Relation.ReflTransGen.head t3 Relation.ReflTransGen.refl))
  have hterm : WorkerTerminal c2OkState :=
    (workerTerminal_iff c2OkState).2 ⟨rfl, rfl, rfl, rfl⟩
  exact ⟨by decide, c2_amended_drain_passes 1 0 (by decide) c2OkState hreach hterm⟩

/-! ## Witness fixtures for claims C3 and C4 -/

/-- An anime snapshot for media 101. -/
def exSnapA : AnimeSnapshot :=
  { mediaId := 101, animeMetadata := mdEmpty, bannerImagePath := "bp",
    coverImagePath := "cp", episodeImagePaths := [], referenceKey := [] }

/-- A remote collection with one custom (null-status) list and one `current`
list, both holding media 101. -/
def exRemote : Collection :=
  { lists := [
      { status := none, name := some "Favorites", isCustomList := some true,
        entries := [currentEntry 101] },
      { status := some MediaListStatus.current, name := some "Watching",
        isCustomList := some false, entries := [currentEntry 101] }] }

/-- The local list the Builder produces from `exRemote` for tracked media 101
with snapshot `exSnapA`. -/
def exLocalListA : MediaList :=
  { status := some MediaListStatus.current, name := some "Watching",
    isCustomList := some false,
    entries := [buildLocalEntry (currentEntry 101) 101 "bp" "cp"] }

/-- C3 (witness): at a concrete remote collection the skeleton equality holds
and the produced list has a non-null status. -/
theorem c3_local_list_skeletons_witness :
    ((buildLocalAnimeCollection exRemote [101] [exSnapA]).lists.map skelOf
      = (exRemote.lists.filter (fun l => l.status.isSome)).map skelOf) ∧
    exLocalListA.status ≠ none := by
  have H := c3_local_list_skeletons exRemote exRemote [101] [101] [exSnapA] []
  exact ⟨H.1.1, H.1.2 exLocalListA (by decide)⟩

/-- C4 (witness): the placement characterization holds for the concrete entry
the Builder places from `exRemote`. -/
theorem c4_placed_entries_witness :
    ∃ st rl e sn,
      exLocalListA.status = some st ∧ rl ∈ exRemote.lists ∧ rl.status = some st ∧
      e ∈ rl.entries ∧ e.media.id ∈ [101] ∧
      List.lookup e.media.id
        ([exSnapA].foldl (fun m s0 => alInsert m s0.mediaId s0) []) = some sn ∧
      buildLocalEntry (currentEntry 101) 101 "bp" "cp"
        = buildLocalEntry e sn.mediaId sn.bannerImagePath sn.coverImagePath ∧
      (buildLocalEntry (currentEntry 101) 101 "bp" "cp").media.id = e.media.id ∧
      (buildLocalEntry (currentEntry 101) 101 "bp" "cp").media.bannerImage
        = FormatAssetUrl sn.mediaId sn.bannerImagePath ∧
      (buildLocalEntry (currentEntry 101) 101 "bp" "cp").media.coverImage = some
        { extraLarge := FormatAssetUrl sn.mediaId sn.coverImagePath,
          large := FormatAssetUrl sn.mediaId sn.coverImagePath,
          medium := FormatAssetUrl sn.mediaId sn.coverImagePath,
          color := FormatAssetUrl sn.mediaId sn.coverImagePath } ∧
      (∀ j, j < 0 → ∀ lj,
        (buildLocalAnimeCollection exRemote [101] [exSnapA]).lists.get? j = some lj →
        lj.status ≠ some st) :=
  c4_placed_entries.1 exRemote [101] [exSnapA] 0 exLocalListA
    (buildLocalEntry (currentEntry 101) 101 "bp" "cp") (by decide) (by decide)

end Seanime
